import Mathlib

/-!
Verification of the saltcheck test engine (src/salt/_modules/saltcheck.py).

The development shallowly embeds the engine's core: the assertion routines
(`SaltCheck.__assert_*`), type coercion (`_cast_expected_to_returned_type`),
validity scoring (`__is_valid_test`), the single-test executor (`run_test`),
the salt-command wrapper (`_call_salt_command`), and the test-file loader
(`StateTestLoader`).

Values flowing through the engine (rendered YAML/JSON data and salt module
returns) are modelled by the inductive type `Val` covering `None`, booleans,
integers, strings, lists and string-keyed ordered mappings.  Floats are left
out of the model; no claim involves them.  Python exceptions are modelled by
`PyErr`; an exception raised inside the external invocation collaborator is
tagged `PyErr.collab`, and fallible embedded code returns `Except PyErr`.
-/

/-- Python exceptions that the embedded code can raise or catch. -/
inductive PyErr where
  | typeError
  | valueError
  | keyError
  | attributeError
  | collab (msg : String)
deriving DecidableEq

/-- Errors of the `sys.list_functions` introspection collaborator:
`saltException` models `salt.exceptions.SaltException` (caught by
`_is_valid_function`); `other` models any other exception raised inside the
collaborator (propagated). -/
inductive LookupErr where
  | saltException
  | other (msg : String)
deriving DecidableEq

/-- Runtime values handled by the engine: `None`, `bool`, `int`, `str`,
`list` and (ordered, string-keyed) `dict`. -/
inductive Val where
  | none
  | bool (b : Bool)
  | int (n : Int)
  | str (s : String)
  | list (xs : List Val)
  | dict (kvs : List (String × Val))

/-- Python `int(b)` for a boolean. -/
def boolInt (b : Bool) : Int := if b then 1 else 0

/-- Python truthiness of a value (`bool(v)` / `if v:`). -/
def pyTruthy : Val → Bool
  | .none => false
  | .bool b => b
  | .int n => n != 0
  | .str s => s != ""
  | .list xs => !xs.isEmpty
  | .dict kvs => !kvs.isEmpty

/-- Split a character list on a separator character (Python `s.split(sep)`
for a one-character separator: adjacent separators yield empty parts and
the empty string yields one empty part). -/
def splitListOn (sep : Char) : List Char → List (List Char)
  | [] => [[]]
  | c :: cs =>
      let r := splitListOn sep cs
      if c == sep then [] :: r
      else
        match r with
        | [] => [[c]]
        | h :: t => (c :: h) :: t

/-- Python `s.split('.')`. -/
def splitDot (s : String) : List String :=
  (splitListOn (Char.ofNat 46) s.data).map (fun l => ⟨l⟩)

/-- Substring occurrence on character lists (the empty needle occurs in
everything). -/
def containsSub : List Char → List Char → Bool
  | l, sub =>
    sub.isPrefixOf l ||
      match l with
      | [] => false
      | _ :: t => containsSub t sub

/-- Python `s.endswith(suffix)`. -/
def strEndsWith (s suffix : String) : Bool :=
  suffix.data.isSuffixOf s.data

/-- Python `s.strip()`: drop whitespace from both ends. -/
def trimChars (l : List Char) : List Char :=
  ((l.dropWhile (fun c => c.isWhitespace)).reverse.dropWhile
    (fun c => c.isWhitespace)).reverse

/-- Decimal digits to a number, or nothing if empty or non-digit. -/
def digitsToNat (l : List Char) : Option Nat :=
  if l.isEmpty then Option.none
  else if l.all (fun c => c.isDigit) then
    some (l.foldl (fun acc c => acc * 10 + (c.toNat - 48)) 0)
  else Option.none

/-- Parse an optionally signed decimal integer (Python `int(text)` after
stripping; underscores are not modelled). -/
def parseIntChars : List Char → Option Int
  | c :: rest =>
      if c == Char.ofNat 45 then (digitsToNat rest).map (fun n => -(n : Int))
      else if c == Char.ofNat 43 then (digitsToNat rest).map (fun n => (n : Int))
      else (digitsToNat (c :: rest)).map (fun n => (n : Int))
  | [] => Option.none

mutual
/-- Python `==` on embedded values.  Booleans compare equal to the
integers 0/1 (`bool` is an `int` subtype); mappings are the engine's ordered
mappings (`OrderedDict`), whose equality is pairwise in order. -/
def pyEq : Val → Val → Bool
  | .none, .none => true
  | .bool a, .bool b => a == b
  | .bool a, .int n => boolInt a == n
  | .int n, .bool b => n == boolInt b
  | .int a, .int b => a == b
  | .str a, .str b => a == b
  | .list xs, .list ys => pyEqList xs ys
  | .dict xs, .dict ys => pyEqEntries xs ys
  | _, _ => false

/-- Elementwise Python equality of two lists. -/
def pyEqList : List Val → List Val → Bool
  | [], [] => true
  | x :: xs, y :: ys => pyEq x y && pyEqList xs ys
  | _, _ => false

/-- Pairwise Python equality of two ordered mappings. -/
def pyEqEntries : List (String × Val) → List (String × Val) → Bool
  | [], [] => true
  | (k, v) :: xs, (l, w) :: ys => k == l && pyEq v w && pyEqEntries xs ys
  | _, _ => false
end

/-- The apostrophe character used by Python `repr` of a string. -/
def quoteChar : String := String.singleton (Char.ofNat 39)

mutual
/-- Python `str(v)`.  Containers render their elements with `repr`; string
elements are shown quoted (escaping inside `repr` is not modelled — no string
in the development contains a quote). -/
def pyStr : Val → String
  | .none => "None"
  | .bool b => if b then "True" else "False"
  | .int n => toString n
  | .str s => s
  | .list xs => "[" ++ pyReprJoin xs ++ "]"
  | .dict kvs => "\x7b" ++ pyReprEntries kvs ++ "\x7d"

/-- Python `repr(v)`: like `str` except strings gain quotes. -/
def pyRepr : Val → String
  | .str s => quoteChar ++ s ++ quoteChar
  | .none => "None"
  | .bool b => if b then "True" else "False"
  | .int n => toString n
  | .list xs => "[" ++ pyReprJoin xs ++ "]"
  | .dict kvs => "\x7b" ++ pyReprEntries kvs ++ "\x7d"

/-- Comma-joined `repr`s of list elements. -/
def pyReprJoin : List Val → String
  | [] => ""
  | [x] => pyRepr x
  | x :: xs => pyRepr x ++ ", " ++ pyReprJoin xs

/-- Comma-joined `key: value` renderings of mapping entries. -/
def pyReprEntries : List (String × Val) → String
  | [] => ""
  | [(k, v)] => quoteChar ++ k ++ quoteChar ++ ": " ++ pyRepr v
  | (k, v) :: kvs =>
      quoteChar ++ k ++ quoteChar ++ ": " ++ pyRepr v ++ ", " ++ pyReprEntries kvs
end

/-- Substring test modelling Python `sub in s` for strings (the empty
string is a member of every string). -/
def strContains (s sub : String) : Bool :=
  containsSub s.data sub.data

/-- Python membership `e in container`.  Strings require a string operand,
lists compare elements with `==`, mappings test key membership; `int`,
`bool` and `None` are not containers and raise `TypeError`. -/
def pyIn (e container : Val) : Except PyErr Bool :=
  match container with
  | .str s =>
      match e with
      | .str sub => .ok (strContains s sub)
      | _ => .error .typeError
  | .list xs => .ok (xs.any (fun x => pyEq e x))
  | .dict kvs => .ok (kvs.any (fun kv => pyEq e (.str kv.1)))
  | _ => .error .typeError

/-- Code-point lexicographic order on character lists (Python string `<`). -/
def charListLt : List Char → List Char → Bool
  | [], [] => false
  | [], _ :: _ => true
  | _ :: _, [] => false
  | c :: cs, d :: ds => c < d || (c == d && charListLt cs ds)

/-- Python `<` on strings. -/
def strLtB (a b : String) : Bool := charListLt a.data b.data

mutual
/-- Python `<`.  Numbers (with booleans as 0/1) and strings are ordered;
lists are ordered lexicographically; any other pairing raises `TypeError`
(modelled by `.error ()` and tagged by the caller). -/
def pyLt : Val → Val → Except Unit Bool
  | .int a, .int b => .ok (a < b)
  | .int a, .bool b => .ok (a < boolInt b)
  | .bool a, .int b => .ok (boolInt a < b)
  | .bool a, .bool b => .ok (boolInt a < boolInt b)
  | .str a, .str b => .ok (strLtB a b)
  | .list xs, .list ys => pyLtList xs ys
  | _, _ => .error ()

/-- Lexicographic `<` on lists: skip `==` prefixes, then compare the first
differing elements (raising if they are incomparable). -/
def pyLtList : List Val → List Val → Except Unit Bool
  | [], [] => .ok false
  | [], _ :: _ => .ok true
  | _ :: _, [] => .ok false
  | x :: xs, y :: ys => if pyEq x y then pyLtList xs ys else pyLt x y
end

/-- `pyLt` with the raised error tagged as a Python `TypeError`. -/
def pyLtE (a b : Val) : Except PyErr Bool :=
  match pyLt a b with
  | .ok r => .ok r
  | .error _ => .error .typeError

/-- Python `<=`, which for the supported built-in types agrees with
`<` - or - `==`. -/
def pyLeE (a b : Val) : Except PyErr Bool := do
  let l ← pyLtE a b
  .ok (l || pyEq a b)

/-- Python `>`: for the supported built-in types `a > b` iff `b < a`. -/
def pyGtE (a b : Val) : Except PyErr Bool := pyLtE b a

/-- Python `>=`: for the supported built-in types `a >= b` iff `b <= a`. -/
def pyGeE (a b : Val) : Except PyErr Bool := pyLeE b a

/-- Lookup in an ordered mapping: Python `d.get(k, dflt)`. -/
def dictGet (d : List (String × Val)) (k : String) (dflt : Val) : Val :=
  (d.lookup k).getD dflt

/-- Python `k in d.keys()`. -/
def dictHasKey (d : List (String × Val)) (k : String) : Bool :=
  (d.lookup k).isSome

/-- Python subscript `d[k]`, raising `KeyError` when the key is absent. -/
def dictIndex (d : List (String × Val)) (k : String) : Except PyErr Val :=
  match d.lookup k with
  | some v => .ok v
  | Option.none => .error .keyError

/-- `OrderedDict` assignment `d[k] = v`: an existing key keeps its position
and gets the new value; a new key is appended. -/
def odInsert (d : List (String × Val)) (k : String) (v : Val) :
    List (String × Val) :=
  if (d.lookup k).isSome then
    d.map (fun kv => if kv.1 = k then (k, v) else kv)
  else d ++ [(k, v)]

/-- Python `d.pop(k)` guarded by `k in d` (removes the entry if present). -/
def dictRemove (d : List (String × Val)) (k : String) : List (String × Val) :=
  d.filter (fun kv => kv.1 != k)

/-- Python iterable unpacking `*v` (also `list(v)`): lists yield their
elements, strings their characters, mappings their keys; `int`, `bool` and
`None` are not iterable. -/
def unpackStar : Val → Except PyErr (List Val)
  | .list xs => .ok xs
  | .str s => .ok (s.data.map (fun c => .str (String.singleton c)))
  | .dict kvs => .ok (kvs.map (fun kv => Val.str kv.1))
  | _ => .error .typeError

/-- Python `int(v)`: ints and booleans convert; strings are parsed
(`ValueError` on failure); `None`, lists and mappings raise `TypeError`. -/
def pyToInt : Val → Except PyErr Val
  | .int n => .ok (.int n)
  | .bool b => .ok (.int (boolInt b))
  | .str s =>
      match parseIntChars (trimChars s.data) with
      | some n => .ok (.int n)
      | Option.none => .error .valueError
  | _ => .error .typeError

/-- One element of Python `dict(pairs)`: a two-element sequence giving a
key-value pair.  A two-element list with a string key converts; a
two-character string gives a character pair; wrong-length sequences raise
`ValueError` and non-sequences `TypeError`.  (Pairs with non-string keys
and mapping-typed elements fall outside the string-keyed value model and
are routed to the errors.) -/
def pairEntry : Val → Except PyErr (String × Val)
  | .list [.str k, v] => .ok (k, v)
  | .list [_, _] => .error .typeError
  | .list _ => .error .valueError
  | .str s =>
      match s.data with
      | [k, v] => .ok (String.singleton k, .str (String.singleton v))
      | _ => .error .valueError
  | .dict _ => .error .valueError
  | _ => .error .typeError

/-- Python `dict(pairs)` from a list: pairs are inserted left to right, so
a later pair with the same key overwrites an earlier one. -/
def dictFromPairsAux (acc : List (String × Val)) :
    List Val → Except PyErr (List (String × Val))
  | [] => .ok acc
  | x :: rest => do
      let kv ← pairEntry x
      dictFromPairsAux (odInsert acc kv.1 kv.2) rest

/-- Python `dict(pairs)` from the empty accumulator. -/
def dictFromPairs (xs : List Val) : Except PyErr (List (String × Val)) :=
  dictFromPairsAux [] xs

/-- Python `dict(v)`: mappings copy; the empty string gives an empty mapping
while a non-empty string raises `ValueError` (its characters are not
key-value pairs); lists convert pairwise; the rest raise `TypeError`. -/
def pyToDict : Val → Except PyErr Val
  | .dict kvs => .ok (.dict kvs)
  | .str s => if s = "" then .ok (.dict []) else .error .valueError
  | .list xs => do
      let kvs ← dictFromPairs xs
      .ok (.dict kvs)
  | _ => .error .typeError

/-- `ret_type(x)`: construct a value of `returned`'s runtime type from `x`,
as `type(returned)(x)` does.  `NoneType` accepts no argument (`TypeError`),
`bool`/`str` never fail, `int`/`list`/`dict` follow the Python rules above. -/
def pyConstruct (returned x : Val) : Except PyErr Val :=
  match returned with
  | .none => .error .typeError
  | .bool _ => .ok (.bool (pyTruthy x))
  | .int _ => pyToInt x
  | .str _ => .ok (.str (pyStr x))
  | .list _ => do
      let xs ← unpackStar x
      .ok (.list xs)
  | .dict _ => pyToDict x

/-- `SaltCheck._cast_expected_to_returned_type`: the literal text "False"
with a boolean actual is replaced by boolean false before construction;
a construction failing with `ValueError` keeps the original `expected`
(`new_expected` was bound before the rebinding); any other exception —
notably the `TypeError` from `NoneType` — propagates. -/
def cast_expected (expected returned : Val) : Except PyErr Val :=
  let expected2 :=
    if pyEq expected (.str "False") && (match returned with | .bool _ => true | _ => false)
    then Val.bool false else expected
  match pyConstruct returned expected2 with
  | .ok v => .ok v
  | .error .valueError => .ok expected
  | .error e => .error e

/-- `SaltCheck.__assert_equal`: catches only the `AssertionError`
(`==` on built-ins never raises) and converts it to a failure string. -/
def assert_equal (expected returned : Val) (assert_print_result : Bool) : String :=
  if pyEq expected returned then "Pass"
  else if assert_print_result then
    "Fail: " ++ pyStr expected ++ " is not equal to " ++ pyStr returned
  else "Fail: Result is not equal"

/-- `SaltCheck.__assert_not_equal`. -/
def assert_not_equal (expected returned : Val) (assert_print_result : Bool) : String :=
  if !pyEq expected returned then "Pass"
  else if assert_print_result then
    "Fail: " ++ pyStr expected ++ " is equal to " ++ pyStr returned
  else "Fail: Result is equal"

/-- `SaltCheck.__assert_true`: `returned is True` is an identity test
against the boolean singleton. -/
def assert_true (returned : Val) : String :=
  match returned with
  | .bool true => "Pass"
  | v => "Fail: " ++ pyStr v ++ " not True"

/-- `SaltCheck.__assert_false`: a string actual is first passed through
`bool()` (which never raises on a string — the `except ValueError` in the
source is dead code), and the failure message formats the rebound value. -/
def assert_false (returned : Val) : String :=
  let returned :=
    match returned with
    | .str s => Val.bool (s != "")
    | v => v
  match returned with
  | .bool false => "Pass"
  | v => "Fail: " ++ pyStr v ++ " not False"

/-- `SaltCheck.__assert_in`: only `AssertionError` is caught, so a
`TypeError` from `expected in returned` propagates. -/
def assert_in (expected returned : Val) (assert_print_result : Bool) :
    Except PyErr String := do
  let mem ← pyIn expected returned
  if mem then .ok "Pass"
  else if assert_print_result then
    .ok ("Fail: " ++ pyStr expected ++ " not found in " ++ pyStr returned)
  else .ok "Fail: Result not found"

/-- `SaltCheck.__assert_not_in`. -/
def assert_not_in (expected returned : Val) (assert_print_result : Bool) :
    Except PyErr String := do
  let mem ← pyIn expected returned
  if !mem then .ok "Pass"
  else if assert_print_result then
    .ok ("Fail: " ++ pyStr expected ++ " was found in " ++ pyStr returned)
  else .ok "Fail: Result was found"

/-- `SaltCheck.__assert_greater`: compares `expected > returned` (expected
on the left); the failure message formats `returned` with the copied
"not False" wording of the source.  A `TypeError` from `>` propagates. -/
def assert_greater (expected returned : Val) : Except PyErr String := do
  let b ← pyGtE expected returned
  if b then .ok "Pass" else .ok ("Fail: " ++ pyStr returned ++ " not False")

/-- `SaltCheck.__assert_greater_equal`. -/
def assert_greater_equal (expected returned : Val) : Except PyErr String := do
  let b ← pyGeE expected returned
  if b then .ok "Pass" else .ok ("Fail: " ++ pyStr returned ++ " not False")

/-- `SaltCheck.__assert_less`. -/
def assert_less (expected returned : Val) : Except PyErr String := do
  let b ← pyLtE expected returned
  if b then .ok "Pass" else .ok ("Fail: " ++ pyStr returned ++ " not False")

/-- `SaltCheck.__assert_less_equal`. -/
def assert_less_equal (expected returned : Val) : Except PyErr String := do
  let b ← pyLeE expected returned
  if b then .ok "Pass" else .ok ("Fail: " ++ pyStr returned ++ " not False")

/-- `SaltCheck.__assert_empty`: truthiness test, never raises. -/
def assert_empty (returned : Val) : String :=
  if !pyTruthy returned then "Pass"
  else "Fail: " ++ pyStr returned ++ " is not empty"

/-- `SaltCheck.__assert_not_empty`. -/
def assert_not_empty (returned : Val) : String :=
  if pyTruthy returned then "Pass" else "Fail: value is empty"

/-- The supported assertion names, in the order produced by splitting the
`assertions_list` string of `SaltCheck.__init__`. -/
def assertions_list : List String :=
  ["assertEqual", "assertNotEqual",
   "assertTrue", "assertFalse",
   "assertIn", "assertNotIn",
   "assertGreater",
   "assertGreaterEqual",
   "assertLess", "assertLessEqual",
   "assertEmpty", "assertNotEmpty"]

/-- The assertion kinds that need no `expected-return`
(`__is_valid_test`, threshold-4 branch). -/
def no_expected_list : List String :=
  ["assertEmpty", "assertNotEmpty", "assertTrue", "assertFalse"]

/-- The assertion kinds for which `run_test` skips type coercion. -/
def no_coerce_list : List String :=
  ["assertIn", "assertNotIn", "assertEmpty", "assertNotEmpty",
   "assertTrue", "assertFalse"]

/-- Python membership of a value in a list of string literals
(`v in ["...", ...]`, comparing with `==`). -/
def pyInStrList (v : Val) (l : List String) : Bool :=
  l.any (fun s => pyEq v (.str s))

/-- The if/elif dispatch of `run_test` (lines 618-643): the first matching
assertion name selects its routine; no match falls through to the
"Fail - bad assertion" status. -/
def dispatch (assertion expected actual : Val) (assert_print_result : Bool) :
    Except PyErr String :=
  if pyEq assertion (.str "assertEqual") then
    .ok (assert_equal expected actual assert_print_result)
  else if pyEq assertion (.str "assertNotEqual") then
    .ok (assert_not_equal expected actual assert_print_result)
  else if pyEq assertion (.str "assertTrue") then
    .ok (assert_true actual)
  else if pyEq assertion (.str "assertFalse") then
    .ok (assert_false actual)
  else if pyEq assertion (.str "assertIn") then
    assert_in expected actual assert_print_result
  else if pyEq assertion (.str "assertNotIn") then
    assert_not_in expected actual assert_print_result
  else if pyEq assertion (.str "assertGreater") then
    assert_greater expected actual
  else if pyEq assertion (.str "assertGreaterEqual") then
    assert_greater_equal expected actual
  else if pyEq assertion (.str "assertLess") then
    assert_less expected actual
  else if pyEq assertion (.str "assertLessEqual") then
    assert_less_equal expected actual
  else if pyEq assertion (.str "assertEmpty") then
    .ok (assert_empty actual)
  else if pyEq assertion (.str "assertNotEmpty") then
    .ok (assert_not_empty actual)
  else
    .ok "Fail - bad assertion"

/-- The introspection capability of the invocation collaborator:
`sys.list_modules` (a fixed list for the run) and `sys.list_functions`
(which may raise).  The `@memoize` decorations on `_is_valid_module` and
`_is_valid_function` are observationally the identity for a fixed oracle. -/
structure Oracle where
  listModules : List String
  listFunctions : String → Except LookupErr (List String)

/-- `_is_valid_module`: membership of the module among the listed ones. -/
def is_valid_module (o : Oracle) (module : String) : Bool :=
  o.listModules.contains module

/-- `_is_valid_function`: a `SaltException` from the lookup degrades to the
sentinel list `["unable to look up functions"]` (so the membership test
fails closed); any other collaborator exception propagates. -/
def is_valid_function (o : Oracle) (module_name function : String) :
    Except PyErr Bool :=
  match o.listFunctions module_name with
  | .ok functions => .ok (functions.contains (module_name ++ "." ++ function))
  | .error .saltException =>
      .ok ((["unable to look up functions"] : List String).contains
            (module_name ++ "." ++ function))
  | .error (.other msg) => .error (.collab msg)

/-- `module, function = m_and_f.split('.')`: attribute access on a
non-string raises `AttributeError`; unpacking a split with other than two
parts raises `ValueError`. -/
def splitUnpack2 (v : Val) : Except PyErr (String × String) :=
  match v with
  | .str s =>
      match splitDot s with
      | [a, b] => .ok (a, b)
      | _ => .error .valueError
  | _ => .error .attributeError

/-- The module-and-function points of `__is_valid_test` (lines 527-534):
one point for a truthy name, one for a known module, one for a known
function; splitting happens before the existence checks. -/
def mf_points (o : Oracle) (m_and_f : Val) : Except PyErr Nat :=
  if pyTruthy m_and_f then do
    let mf ← splitUnpack2 m_and_f
    let fnOk ← is_valid_function o mf.1 mf.2
    .ok (1 + (if is_valid_module o mf.1 then 1 else 0) + (if fnOk then 1 else 0))
  else .ok 0

/-- The required totals of `__is_valid_test` (lines 515-525): 0 when
skipped, 2 for the configuration-apply alias, 4 for a no-expectation
assertion, 6 otherwise. -/
def required_points (test_dict : List (String × Val)) : Nat :=
  if pyTruthy (dictGet test_dict "skip" (.bool false)) then 0
  else if pyEq (dictGet test_dict "module_and_function" Val.none)
      (.str "saltcheck.state_apply") then 2
  else if pyInStrList (dictGet test_dict "assertion" Val.none) no_expected_list
    then 4
  else 6

/-- The assertion and expected-return points of `__is_valid_test`
(lines 535-543): a recognized assertion, a present `expected-return` key,
and a non-null `expected-return` value score one point each. -/
def other_points (test_dict : List (String × Val)) : Nat :=
  (if pyInStrList (dictGet test_dict "assertion" Val.none) assertions_list
    then 1 else 0)
  + (if dictHasKey test_dict "expected-return" then 1 else 0)
  + (match dictGet test_dict "expected-return" Val.none with
     | .none => 0 | _ => 1)

/-- `SaltCheck.__is_valid_test`: the point score against the per-category
required total.  Field accesses use `.get` defaults exactly as the source
does; the score is compared with `>=`. -/
def is_valid_test (o : Oracle) (test_dict : List (String × Val)) :
    Except PyErr Bool := do
  let mfp ← mf_points o (dictGet test_dict "module_and_function" Val.none)
  .ok (decide (required_points test_dict ≤ mfp + other_points test_dict))

/-- The invocation collaborator, `salt.client.Caller.cmd`: a function of the
operation name and its positional/keyword arguments.  An exception raised
inside it is returned as `.error msg`. -/
def Cmd : Type := Val → List Val → List (String × Val) → Except String Val

/-- The `*args` unpacking at the collaborator call: a falsy `args`
(`None` or empty) passes no positional arguments. -/
def unpack_args (args : Val) : Except PyErr (List Val) :=
  if pyTruthy args then unpackStar args else .ok ([] : List Val)

/-- The collaborator invocation `self.salt_lc.cmd(fun, *args, **kwargs)`:
the `try` of the source re-raises every exception unchanged (tagged
`.collab` in the model).  The four-way branch of the source passes exactly
the truthy argument sets; passing an empty list or mapping is
observationally identical for the collaborator, so the branches are
collapsed. -/
def invoke (cmd : Cmd) (fun_name : Val) (argsList : List Val)
    (kwargs : List (String × Val)) : Except PyErr Val :=
  match cmd fun_name argsList kwargs with
  | .ok v => .ok v
  | .error msg => .error (.collab msg)

/-- The result postprocessing of `_call_salt_command` (lines 571-574):
drill into a mapping result when `assertion_section` is truthy, taking the
string form of `value.get(assertion_section, False)`.  A truthy numeric or
boolean section is a hashable key that never matches the string keys, so
the lookup yields the `False` default; a truthy list or mapping section is
unhashable and `value.get` raises a `TypeError`. -/
def apply_section (value assertion_section : Val) : Except PyErr Val :=
  match value with
  | .dict kvs =>
      if pyTruthy assertion_section then
        match assertion_section with
        | .str s => .ok (.str (pyStr (dictGet kvs s (.bool false))))
        | .list _ => .error .typeError
        | .dict _ => .error .typeError
        | _ => .ok (.str (pyStr (Val.bool false)))
      else .ok value
  | v => .ok v

/-- `SaltCheck._call_salt_command`: unpack the positional arguments, invoke
the collaborator, then postprocess with `assertion_section`. -/
def call_salt_command (cmd : Cmd) (fun_name : Val) (args : Val)
    (kwargs : List (String × Val)) (assertion_section : Val) :
    Except PyErr Val := do
  let argsList ← unpack_args args
  let value ← invoke cmd fun_name argsList kwargs
  apply_section value assertion_section

/-- One injection step of `run_test`'s keyword preparation (lines 592-606),
for `pillar`/`grain` with its payload.  Truthy payload:
`kwargs.update({key: data})` — `AttributeError` when `kwargs` is not a
mapping.  Falsy payload: `if key in kwargs: kwargs.pop(key)` — the
membership test follows `kwargs`'s type (a `TypeError` on a non-container,
a substring test on a string, element equality on a list), and a found key
is popped — `AttributeError` for a string (`str` has no `pop`) and
`TypeError` for a list (`pop` takes an integer index, not a string). -/
def inject_or_clean (kwargs : Val) (key : String) (data : Val) :
    Except PyErr Val :=
  if pyTruthy data then
    match kwargs with
    | .dict kv => .ok (.dict (odInsert kv key data))
    | _ => .error .attributeError
  else do
    let mem ← pyIn (.str key) kwargs
    if mem then
      match kwargs with
      | .dict kv => .ok (.dict (dictRemove kv key))
      | .str _ => .error .attributeError
      | _ => .error .typeError
    else .ok kwargs

/-- The keyword-argument preparation of `run_test` (lines 588-606): a falsy
`kwargs` becomes an empty mapping; truthy `pillar-data`/`grain-data` are
injected under `pillar`/`grain`, otherwise those keys are actively removed
(`inject_or_clean`, with its faithful `AttributeError`/`TypeError` paths on
a truthy non-mapping `kwargs`).  A non-mapping `kwargs` that survives both
steps untouched raises a `TypeError` at the `**kwargs` expansion of the
collaborator call (line 560); the model raises it here, which is
observationally identical: between the preparation and the call the source
only selects the assertion, and for every test that gets this far
validation guarantees that selection cannot raise (a valid non-skipped
test uses the alias or has a recognized `assertion` key). -/
def effective_kwargs (test_dict : List (String × Val)) :
    Except PyErr (List (String × Val)) := do
  let kwargs2 ← inject_or_clean
    (if pyTruthy (dictGet test_dict "kwargs" (.dict [])) then
      dictGet test_dict "kwargs" (.dict []) else .dict [])
    "pillar" (dictGet test_dict "pillar-data" (.dict []))
  let kwargs3 ← inject_or_clean kwargs2 "grain"
    (dictGet test_dict "grain-data" (.dict []))
  match kwargs3 with
  | .dict kv => .ok kv
  | _ => .error .typeError

/-- One test's outcome: a textual status and a duration in seconds. -/
structure TestResult where
  status : String
  duration : ℚ
deriving DecidableEq

/-- `round(x, 4)` on the wall-clock duration.  (Python rounds exact ties to
even; no exact tie occurs in the development.) -/
def round4 (q : ℚ) : ℚ := (⌊q * 10000 + 1 / 2⌋ : ℚ) / 10000

/-- The effective-assertion selection of `run_test` (lines 608-611): the
`saltcheck.state_apply` alias always uses `assertNotEmpty`; otherwise the
`assertion` field is read with a subscript (`KeyError` when absent). -/
def effective_assertion (test_dict : List (String × Val)) (mod_and_func : Val) :
    Except PyErr Val :=
  if pyEq mod_and_func (.str "saltcheck.state_apply") then
    .ok (.str "assertNotEmpty")
  else dictIndex test_dict "assertion"

/-- The conditional coercion of `run_test` (lines 615-617): the expected
value is cast to the actual's type unless the assertion kind is exempt. -/
def coerced_expected (assertion expected_return actual_return : Val) :
    Except PyErr Val :=
  if !pyInStrList assertion no_coerce_list then
    cast_expected expected_return actual_return
  else .ok expected_return

/-- `SaltCheck.run_test`: validate, short-circuit a skip to
`{Skip, 0.0}`, prepare arguments, resolve the effective assertion (the
`saltcheck.state_apply` alias always uses `assertNotEmpty`), invoke the
operation, coerce the expected value unless the kind is exempt, dispatch,
and record the rounded duration.  `elapsed` is the wall-clock time
`end - start` measured by the source. -/
def run_test (o : Oracle) (cmd : Cmd) (test_dict : List (String × Val))
    (elapsed : ℚ) : Except PyErr TestResult := do
  let valid ← is_valid_test o test_dict
  if valid then do
    let skip := pyTruthy (dictGet test_dict "skip" (.bool false))
    if skip then
      .ok ⟨"Skip", 0⟩
    else do
      let mod_and_func ← dictIndex test_dict "module_and_function"
      let assertion_section := dictGet test_dict "assertion_section" Val.none
      let args := dictGet test_dict "args" Val.none
      let kwargs ← effective_kwargs test_dict
      let assertion ← effective_assertion test_dict mod_and_func
      let expected_return := dictGet test_dict "expected-return" Val.none
      let assert_print_result :=
        pyTruthy (dictGet test_dict "print_result" (.bool true))
      let actual_return ←
        call_salt_command cmd mod_and_func args kwargs assertion_section
      let expected_return ←
        coerced_expected assertion expected_return actual_return
      let value ← dispatch assertion expected_return actual_return assert_print_result
      .ok ⟨value, round4 elapsed⟩
  else
    .ok ⟨"Fail - invalid test", round4 elapsed⟩

/-- The path separator (`os.sep`); the engine runs on a POSIX minion. -/
def sep : String := "/"

/-- The file-system and walk collaborator used by the loader:
`os.path.isfile`, `os.path.isdir`, and `salt.utils.path.os_walk` (whose
subdirectory component the source ignores, so `walk` yields
`(dirname, filenames)` pairs in walk order). -/
structure FS where
  isfile : String → Bool
  isdir : String → Bool
  walk : String → List (String × List String)

/-- Insert a string into a sorted list, keeping earlier equals first. -/
def insertSorted (s : String) : List String → List String
  | [] => [s]
  | t :: ts => if strLtB t s then t :: insertSorted s ts else s :: t :: ts

/-- Python `list.sort()` on file names (stable, lexicographic). -/
def sortStrings : List String → List String
  | [] => []
  | s :: ss => insertSorted s (sortStrings ss)

/-- `StateTestLoader._gather_files`: reset the collected files, then walk
`filepath/saltcheck-tests`, sorting each directory's file list and keeping
the `.tst` files.  (`os.path.abspath` is the identity here: the search
roots are absolute cache paths.) -/
def gather_files (fs : FS) (filepath : String) : List String :=
  let filepath := filepath ++ sep ++ "saltcheck-tests"
  (fs.walk filepath).foldl
    (fun acc dir =>
      acc ++ ((sortStrings dir.2).filter (fun f => strEndsWith f ".tst")).map
        (fun f => dir.1 ++ sep ++ f))
    []

/-- `sls_name.rpartition('.')` restricted to its first and last components:
no dot yields an empty head, otherwise the head is everything before the
last dot and the leaf everything after it. -/
def rpartitionDot (s : String) : String × String :=
  let parts := splitDot s
  if parts.length ≤ 1 then ("", s)
  else (String.intercalate "." parts.dropLast, parts.getLastD "")

/-- `StateTestLoader._convert_sls_to_path`: dots become path separators. -/
def convert_sls_to_path (sls : String) : String :=
  ⟨sls.data.map (fun c => if c == Char.ofNat 46 then Char.ofNat 47 else c)⟩

/-- The conventional-location probe of `add_test_files_for_sls`
(lines 921-928): append the `init` file and the named file when they
exist, in that order. -/
def probe_conventional (fs : FS) (base_path leaf : String)
    (acc : List String) : List String :=
  let init_path := base_path ++ sep ++ leaf ++ sep ++ "saltcheck-tests"
    ++ sep ++ "init.tst"
  let name_path := base_path ++ sep ++ "saltcheck-tests" ++ sep ++ leaf
    ++ ".tst"
  let acc := if fs.isfile init_path then acc ++ [init_path] else acc
  if fs.isfile name_path then acc ++ [name_path] else acc

/-- The search-path loop of `StateTestLoader.add_test_files_for_sls`,
threading the accumulated `self.test_files`.  With `check_all`, the first
root whose base path is a directory is gathered (which resets the
accumulator) and the loop returns; otherwise the conventional `init` and
named locations are probed and appended across all roots. -/
def add_test_files_go (fs : FS) (head leaf : String) (check_all : Bool) :
    List String → List String → List String
  | [], acc => acc
  | path :: rest, acc =>
    let base_path := if head != "" then path ++ sep ++ convert_sls_to_path head
                     else path
    if fs.isdir base_path then
      if check_all then gather_files fs (base_path ++ sep ++ leaf)
      else add_test_files_go fs head leaf check_all rest
        (probe_conventional fs base_path leaf acc)
    else add_test_files_go fs head leaf check_all rest acc

/-- `StateTestLoader.add_test_files_for_sls`. -/
def add_test_files_for_sls (fs : FS) (sls_name : String) (check_all : Bool)
    (search_paths : List String) (test_files : List String) : List String :=
  let split := rpartitionDot sls_name
  add_test_files_go fs split.1 split.2 check_all search_paths test_files

/-- `StateTestLoader._load_file_salt_rendered`: merge one rendered file into
the suite mapping with `OrderedDict` assignment per key.  (The JSON
round-trip of the source is the identity on rendered data.) -/
def load_file (test_dict : List (String × Val)) (rendered : List (String × Val)) :
    List (String × Val) :=
  rendered.foldl (fun acc kv => odInsert acc kv.1 kv.2) test_dict

/-- `StateTestLoader.load_test_suite`: fold the rendered files, in
discovery order, into one ordered mapping starting from empty. -/
def load_test_suite (renders : List (List (String × Val))) :
    List (String × Val) :=
  renders.foldl load_file []

/-- A concrete introspection oracle for witnesses: the minion knows the
`test` and `saltcheck` modules and their functions. -/
def oracle0 : Oracle :=
  ⟨["test", "saltcheck"],
   fun m => .ok (if m == "saltcheck" then ["saltcheck.state_apply"]
                 else if m == "test" then ["test.echo", "test.ping"]
                 else [])⟩

/-- A concrete collaborator for witnesses: echoes its single positional
argument (like `test.echo`), else returns "hello"; never raises. -/
def cmd_echo : Cmd := fun _ argsList _ =>
  match argsList with
  | [v] => .ok v
  | _ => .ok (.str "hello")

/-- A collaborator returning the non-mapping value 5, never raising. -/
def cmd_const_int : Cmd := fun _ _ _ => .ok (.int 5)

/-- A collaborator returning a mapping with a `shell` entry, never raising. -/
def cmd_const_dict : Cmd := fun _ _ _ => .ok (.dict [("shell", .str "/bin/bash")])

/-- The status string starts with the given text. -/
def beginsWith (p s : String) : Prop := p.data <+: s.data

/-- A status produced by an assertion routine: exactly "Pass", or a failure
message starting with "Fail: ". -/
def wellFormedStatus (s : String) : Prop := s = "Pass" ∨ beginsWith "Fail: " s

/-- The init-file location probed for unit "a.b" under root `R`
(claim C7's first conventional location). -/
def c7_init_path (R : String) : String := R ++ "/a/b/saltcheck-tests/init.tst"

/-- The named-file location probed for unit "a.b" under root `R`
(claim C7's second conventional location). -/
def c7_name_path (R : String) : String := R ++ "/a/saltcheck-tests/b.tst"

/-- Whichever of the two conventional locations exist under root `R`,
init file first. -/
def c7_candidates (fs : FS) (R : String) : List String :=
  (if fs.isfile (c7_init_path R) then [c7_init_path R] else []) ++
  (if fs.isfile (c7_name_path R) then [c7_name_path R] else [])

/-- Every `.tst` file under `R/a/b/saltcheck-tests/`, in walk order with
each directory's file list sorted by name (claim C7's checkAll result). -/
def c7_all_tsts (fs : FS) (R : String) : List String :=
  (fs.walk (R ++ "/a/b/saltcheck-tests")).foldl
    (fun acc dir =>
      acc ++ ((sortStrings dir.2).filter (fun f => strEndsWith f ".tst")).map
        (fun f => dir.1 ++ "/" ++ f))
    []

/-- Position of the first occurrence of a string in a list (the length of
the list when absent). -/
def posOf (x : String) : List String → Nat
  | [] => 0
  | y :: ys => if y = x then 0 else posOf x ys + 1

/-- The shape condition on `module_and_function` under which validation
does not raise: the field is falsy, or it is a string splitting into
exactly a module and a function around one dot. -/
def mfShapeOk (test_dict : List (String × Val)) : Prop :=
  pyTruthy (dictGet test_dict "module_and_function" Val.none) = false ∨
  ∃ a b, splitUnpack2 (dictGet test_dict "module_and_function" Val.none) = .ok (a, b)

/-- A concrete file system for the discovery witness: a named test file
under root R1, an init test file under root R2, and a walkable test
directory under R2. -/
def fs7 : FS :=
  ⟨fun p => p == "R1/a/saltcheck-tests/b.tst"
      || p == "R2/a/b/saltcheck-tests/init.tst",
   fun p => p == "R1/a" || p == "R2/a",
   fun p => if p == "R2/a/b/saltcheck-tests" then
      [("R2/a/b/saltcheck-tests", ["z.tst", "a.tst", "note"])] else []⟩

/-- The outcome classes of one executor step: a value, an exception from
the external collaborator, or a Python `TypeError`. -/
def ExcClasses {α : Type} (e : Except PyErr α) : Prop :=
  (∃ a, e = .ok a) ∨ (∃ m, e = .error (.collab m)) ∨ e = .error .typeError

/-- The failure classes that can escape `run_test`: an executor-step
outcome, or the `AttributeError` of `update`/`pop` on a truthy non-mapping
`kwargs` field. -/
def RunClasses {α : Type} (e : Except PyErr α) : Prop :=
  ExcClasses e ∨ e = .error .attributeError

theorem beginsWith_refl (p : String) : beginsWith p p :=
  List.prefix_refl p.data

theorem beginsWith_concat (p q t : String) (h : beginsWith p q) :
    beginsWith p (q ++ t) := by
  unfold beginsWith at h ⊢
  rw [String.data_append]
  exact h.trans (List.prefix_append q.data t.data)

theorem beginsWith_lit {p s : String} (t : String) (h : p ++ t = s) :
    beginsWith p s :=
  h ▸ beginsWith_concat p p t (beginsWith_refl p)

theorem fail_beginsWith (t : String) : beginsWith "Fail: " ("Fail: " ++ t) :=
  beginsWith_concat _ _ t (beginsWith_refl _)

theorem wfs_assert_equal (e r : Val) (pr : Bool) :
    wellFormedStatus (assert_equal e r pr) := by
  unfold assert_equal
  split
  · exact Or.inl rfl
  · split
    · exact Or.inr (beginsWith_concat _ _ _ (beginsWith_concat _ _ _ (fail_beginsWith _)))
    · exact Or.inr (beginsWith_lit "Result is not equal" rfl)

theorem wfs_assert_not_equal (e r : Val) (pr : Bool) :
    wellFormedStatus (assert_not_equal e r pr) := by
  unfold assert_not_equal
  split
  · exact Or.inl rfl
  · split
    · exact Or.inr (beginsWith_concat _ _ _ (beginsWith_concat _ _ _ (fail_beginsWith _)))
    · exact Or.inr (beginsWith_lit "Result is equal" rfl)

theorem wfs_assert_true (r : Val) : wellFormedStatus (assert_true r) := by
  unfold assert_true
  split
  · exact Or.inl rfl
  · exact Or.inr (beginsWith_concat _ _ _ (fail_beginsWith _))

theorem wfs_assert_false (r : Val) : wellFormedStatus (assert_false r) := by
  cases r with
  | str s =>
    cases hs : (s != "") with
    | false => exact Or.inl (by simp [assert_false, hs])
    | true =>
      refine Or.inr ?_
      simp only [assert_false, hs]
      exact beginsWith_lit "True not False" rfl
  | bool b =>
    cases b with
    | false => exact Or.inl rfl
    | true => exact Or.inr (beginsWith_lit "True not False" rfl)
  | none => exact Or.inr (beginsWith_lit "None not False" rfl)
  | int n => exact Or.inr (beginsWith_concat _ _ _ (fail_beginsWith _))
  | list xs => exact Or.inr (beginsWith_concat _ _ _ (fail_beginsWith _))
  | dict kvs => exact Or.inr (beginsWith_concat _ _ _ (fail_beginsWith _))

theorem wfs_assert_in (e r : Val) (pr : Bool) (s : String)
    (h : assert_in e r pr = .ok s) : wellFormedStatus s := by
  unfold assert_in at h
  cases hm : pyIn e r with
  | error er => rw [hm] at h; exact Except.noConfusion h
  | ok mem =>
    rw [hm] at h
    replace h : (if mem then Except.ok "Pass"
      else if pr then Except.ok ("Fail: " ++ pyStr e ++ " not found in " ++ pyStr r)
      else Except.ok ("Fail: Result not found" : String)) = Except.ok s := h
    split at h
    · exact Or.inl (by injection h with h2; exact h2.symm)
    · split at h
      · injection h with h2
        exact Or.inr (h2 ▸ beginsWith_concat _ _ _ (beginsWith_concat _ _ _ (fail_beginsWith _)))
      · injection h with h2
        exact Or.inr (h2 ▸ beginsWith_lit "Result not found" rfl)

theorem wfs_assert_not_in (e r : Val) (pr : Bool) (s : String)
    (h : assert_not_in e r pr = .ok s) : wellFormedStatus s := by
  unfold assert_not_in at h
  cases hm : pyIn e r with
  | error er => rw [hm] at h; exact Except.noConfusion h
  | ok mem =>
    rw [hm] at h
    replace h : (if !mem then Except.ok "Pass"
      else if pr then Except.ok ("Fail: " ++ pyStr e ++ " was found in " ++ pyStr r)
      else Except.ok ("Fail: Result was found" : String)) = Except.ok s := h
    split at h
    · exact Or.inl (by injection h with h2; exact h2.symm)
    · split at h
      · injection h with h2
        exact Or.inr (h2 ▸ beginsWith_concat _ _ _ (beginsWith_concat _ _ _ (fail_beginsWith _)))
      · injection h with h2
        exact Or.inr (h2 ▸ beginsWith_lit "Result was found" rfl)

theorem wfs_cmp (f : Val → Val → Except PyErr Bool) (e r : Val) (s : String)
    (h : (do
      let b ← f e r
      if b then Except.ok "Pass"
      else Except.ok ("Fail: " ++ pyStr r ++ " not False")) = Except.ok s) :
    wellFormedStatus s := by
  cases hm : f e r with
  | error er => rw [hm] at h; exact Except.noConfusion h
  | ok b =>
    rw [hm] at h
    replace h : (if b then Except.ok "Pass"
      else Except.ok ("Fail: " ++ pyStr r ++ " not False")) = Except.ok s := h
    split at h
    · exact Or.inl (by injection h with h2; exact h2.symm)
    · injection h with h2
      exact Or.inr (h2 ▸ beginsWith_concat _ _ _ (fail_beginsWith _))

theorem wfs_assert_empty (r : Val) : wellFormedStatus (assert_empty r) := by
  unfold assert_empty
  split
  · exact Or.inl rfl
  · exact Or.inr (beginsWith_concat _ _ _ (fail_beginsWith _))

theorem wfs_assert_not_empty (r : Val) : wellFormedStatus (assert_not_empty r) := by
  unfold assert_not_empty
  split
  · exact Or.inl rfl
  · exact Or.inr (beginsWith_lit "value is empty" rfl)

theorem dispatch_wfs (assertion e a : Val) (pr : Bool) (s : String)
    (h : dispatch assertion e a pr = .ok s) :
    wellFormedStatus s ∨ s = "Fail - bad assertion" := by
  unfold dispatch at h
  by_cases hc1 : pyEq assertion (.str "assertEqual") = true
  · rw [if_pos hc1] at h
    exact Or.inl (by injection h with hv; exact hv ▸ wfs_assert_equal e a pr)
  · rw [if_neg hc1] at h
    by_cases hc2 : pyEq assertion (.str "assertNotEqual") = true
    · rw [if_pos hc2] at h
      exact Or.inl (by injection h with hv; exact hv ▸ wfs_assert_not_equal e a pr)
    · rw [if_neg hc2] at h
      by_cases hc3 : pyEq assertion (.str "assertTrue") = true
      · rw [if_pos hc3] at h
        exact Or.inl (by injection h with hv; exact hv ▸ wfs_assert_true a)
      · rw [if_neg hc3] at h
        by_cases hc4 : pyEq assertion (.str "assertFalse") = true
        · rw [if_pos hc4] at h
          exact Or.inl (by injection h with hv; exact hv ▸ wfs_assert_false a)
        · rw [if_neg hc4] at h
          by_cases hc5 : pyEq assertion (.str "assertIn") = true
          · rw [if_pos hc5] at h
            exact Or.inl (wfs_assert_in e a pr s h)
          · rw [if_neg hc5] at h
            by_cases hc6 : pyEq assertion (.str "assertNotIn") = true
            · rw [if_pos hc6] at h
              exact Or.inl (wfs_assert_not_in e a pr s h)
            · rw [if_neg hc6] at h
              by_cases hc7 : pyEq assertion (.str "assertGreater") = true
              · rw [if_pos hc7] at h
                exact Or.inl (wfs_cmp pyGtE e a s h)
              · rw [if_neg hc7] at h
                by_cases hc8 : pyEq assertion (.str "assertGreaterEqual") = true
                · rw [if_pos hc8] at h
                  exact Or.inl (wfs_cmp pyGeE e a s h)
                · rw [if_neg hc8] at h
                  by_cases hc9 : pyEq assertion (.str "assertLess") = true
                  · rw [if_pos hc9] at h
                    exact Or.inl (wfs_cmp pyLtE e a s h)
                  · rw [if_neg hc9] at h
                    by_cases hc10 : pyEq assertion (.str "assertLessEqual") = true
                    · rw [if_pos hc10] at h
                      exact Or.inl (wfs_cmp pyLeE e a s h)
                    · rw [if_neg hc10] at h
                      by_cases hc11 : pyEq assertion (.str "assertEmpty") = true
                      · rw [if_pos hc11] at h
                        exact Or.inl (by injection h with hv; exact hv ▸ wfs_assert_empty a)
                      · rw [if_neg hc11] at h
                        by_cases hc12 : pyEq assertion (.str "assertNotEmpty") = true
                        · rw [if_pos hc12] at h
                          exact Or.inl (by injection h with hv; exact hv ▸ wfs_assert_not_empty a)
                        · rw [if_neg hc12] at h
                          exact Or.inr (by injection h with hv; exact hv.symm)

/-- C1 (amended): for every assertion kind and every pair of expected and
actual values (and any printOption), whenever the dispatched assertion
routine returns a status rather than raising, that status is a string
beginning with "Pass" or "Fail".  (The original claim's "never raises" part
fails: only `AssertionError` is caught, so a membership test against a
non-container actual or an ordering comparison of incomparable operands
raises a `TypeError` — see the counterexample.) -/
theorem C1_dispatch_pass_or_fail (assertion expected actual : Val) (pr : Bool)
    (s : String) (h : dispatch assertion expected actual pr = .ok s) :
    beginsWith "Pass" s ∨ beginsWith "Fail" s := by
  rcases dispatch_wfs assertion expected actual pr s h with hw | hb
  · rcases hw with hp | hf
    · exact Or.inl (hp ▸ beginsWith_refl "Pass")
    · refine Or.inr (List.IsPrefix.trans ?_ hf)
      exact ⟨[':', ' '], rfl⟩
  · exact Or.inr (hb ▸ beginsWith_lit " - bad assertion" rfl)

/-- C1 witness: the theorem applied to `assertEqual` on equal strings. -/
theorem C1_witness : beginsWith "Pass" "Pass" ∨ beginsWith "Fail" "Pass" :=
  C1_dispatch_pass_or_fail (.str "assertEqual") (.str "a") (.str "a") true "Pass" rfl

/-- C1 counterexample: `assertIn` with the integer actual 5 raises an
uncaught `TypeError` (`"a" in 5` is not a membership test Python accepts),
so the routine does not return a "Pass"/"Fail" string for every input. -/
theorem C1_cx_assert_in_raises :
    assert_in (Val.str "a") (Val.int 5) true = .error PyErr.typeError := rfl

/-- C2 (amended): `assertFalse` coerces any non-empty textual actual —
including the text "False" — to boolean true and fails with
"Fail: True not False"; only the empty text coerces to boolean false and
passes.  (The original claim's special treatment of "False" fails: Python
`bool` on a non-empty string is always true.) -/
theorem C2_assert_false_text (s : String) (h : s ≠ "") :
    assert_false (.str s) = "Fail: True not False" ∧
    assert_false (.str "") = "Pass" := by
  constructor
  · have hb : (s != "") = true := by simpa using h
    simp only [assert_false, hb]
    rfl
  · rfl

/-- C2 witness: the theorem applied to the text "False" itself. -/
theorem C2_witness :
    assert_false (.str "False") = "Fail: True not False" ∧
    assert_false (.str "") = "Pass" :=
  C2_assert_false_text "False" (by decide)

/-- C2 counterexample: on the textual actual "False" the assertion does not
pass — it is coerced to boolean true and fails. -/
theorem C2_cx_assert_false_text :
    assert_false (Val.str "False") ≠ "Pass" ∧
    assert_false (Val.str "False") = "Fail: True not False" := by
  constructor
  · decide
  · rfl

/-- C5 (amended): if constructing a value of the actual's runtime type from
the expected text fails with a `ValueError`, type coercion returns the
original expected value unchanged and raises nothing.  (The original
claim's "for every actual value" fails: only `ValueError` is caught, and
construction for a `None` actual fails with an uncaught `TypeError` — see
the counterexample.) -/
theorem C5_cast_keeps_original (s : String) (r : Val)
    (h : pyConstruct r (.str s) = .error .valueError) :
    cast_expected (.str s) r = .ok (.str s) := by
  cases r with
  | bool b => exact absurd h (by cases b <;> simp [pyConstruct])
  | none => exact absurd h (by simp [pyConstruct])
  | int n => simp [cast_expected, h]
  | str t => simp [cast_expected, h]
  | list xs => simp [cast_expected, h]
  | dict kvs => simp [cast_expected, h]

/-- C5 witness: parsing "abc" as an integer fails with `ValueError`, and
coercion keeps the text "abc". -/
theorem C5_witness : cast_expected (.str "abc") (.int 0) = .ok (.str "abc") :=
  C5_cast_keeps_original "abc" (.int 0) (by rfl)

/-- C5 counterexample: with a `None` actual, construction fails with a
`TypeError` (`NoneType` takes no arguments) which coercion does not catch —
it raises instead of returning the original text. -/
theorem C5_cx_none_actual_raises :
    cast_expected (Val.str "x") Val.none = .error PyErr.typeError := rfl

theorem pyEq_str_eq (v : Val) (s : String) (h : pyEq v (.str s) = true) :
    v = .str s := by
  cases v <;> simp only [pyEq] at h <;>
    first
      | exact absurd h (by decide)
      | exact congrArg Val.str (by simpa using h)

theorem mf_points_le (o : Oracle) (m : Val) (n : Nat)
    (h : mf_points o m = .ok n) : n ≤ 3 := by
  unfold mf_points at h
  split at h
  · cases hsp : splitUnpack2 m with
    | error e => rw [hsp] at h; exact Except.noConfusion h
    | ok mf =>
      rw [hsp] at h
      replace h : (do
        let fnOk ← is_valid_function o mf.1 mf.2
        Except.ok (1 + (if is_valid_module o mf.1 then 1 else 0)
          + (if fnOk then 1 else 0))) = Except.ok n := h
      cases hvf : is_valid_function o mf.1 mf.2 with
      | error e => rw [hvf] at h; exact Except.noConfusion h
      | ok fnOk =>
        rw [hvf] at h
        replace h : Except.ok (1 + (if is_valid_module o mf.1 then 1 else 0)
          + (if fnOk then 1 else 0)) = Except.ok n := h
        injection h with h2
        subst h2
        split <;> split <;> omega
  · injection h with h2
    omega

theorem mf_points_pos_truthy (o : Oracle) (m : Val) (n : Nat)
    (h : mf_points o m = .ok n) (hn : 1 ≤ n) : pyTruthy m = true := by
  by_contra hf
  rw [mf_points, if_neg hf] at h
  injection h with h2
  omega

theorem other_points_le (t : List (String × Val)) : other_points t ≤ 3 := by
  unfold other_points
  split <;> split <;> split <;> omega

theorem other_points_le_two (t : List (String × Val))
    (h : pyInStrList (dictGet t "assertion" Val.none) assertions_list = false) :
    other_points t ≤ 2 := by
  unfold other_points
  rw [if_neg (by simp [h])]
  split <;> split <;> omega

theorem valid_true_elim (o : Oracle) (t : List (String × Val))
    (h : is_valid_test o t = .ok true) :
    ∃ n, mf_points o (dictGet t "module_and_function" Val.none) = .ok n ∧
      required_points t ≤ n + other_points t := by
  unfold is_valid_test at h
  cases hm : mf_points o (dictGet t "module_and_function" Val.none) with
  | error e => rw [hm] at h; exact Except.noConfusion h
  | ok n =>
    rw [hm] at h
    replace h : Except.ok (decide (required_points t ≤ n + other_points t))
      = Except.ok true := h
    injection h with h2
    exact ⟨n, rfl, of_decide_eq_true h2⟩

theorem valid_true_intro (o : Oracle) (t : List (String × Val)) (n : Nat)
    (hm : mf_points o (dictGet t "module_and_function" Val.none) = .ok n)
    (hle : required_points t ≤ n + other_points t) :
    is_valid_test o t = .ok true := by
  unfold is_valid_test
  rw [hm]
  show Except.ok (decide (required_points t ≤ n + other_points t)) = Except.ok true
  rw [decide_eq_true hle]

theorem noexp_sub_assertions (v : Val)
    (h : pyInStrList v no_expected_list = true) :
    pyInStrList v assertions_list = true := by
  simp only [pyInStrList, no_expected_list, assertions_list, List.any_cons,
    List.any_nil, Bool.or_eq_true, Bool.or_false] at h ⊢
  tauto

theorem valid_assertion_recognized (o : Oracle) (t : List (String × Val))
    (hv : is_valid_test o t = .ok true)
    (hs : pyTruthy (dictGet t "skip" (.bool false)) = false)
    (hsa : pyEq (dictGet t "module_and_function" Val.none)
      (.str "saltcheck.state_apply") = false) :
    pyInStrList (dictGet t "assertion" Val.none) assertions_list = true := by
  obtain ⟨n, hmp, hle⟩ := valid_true_elim o t hv
  have hn3 := mf_points_le o _ n hmp
  unfold required_points at hle
  rw [if_neg (by simp [hs]), if_neg (by simp [hsa])] at hle
  by_cases ha : pyInStrList (dictGet t "assertion" Val.none) no_expected_list = true
  · exact noexp_sub_assertions _ ha
  · rw [if_neg (by simp [ha])] at hle
    by_contra hf
    have h2 := other_points_le_two t (by simpa using hf)
    omega

theorem valid_mf_truthy (o : Oracle) (t : List (String × Val))
    (hv : is_valid_test o t = .ok true)
    (hs : pyTruthy (dictGet t "skip" (.bool false)) = false) :
    pyTruthy (dictGet t "module_and_function" Val.none) = true := by
  obtain ⟨n, hmp, hle⟩ := valid_true_elim o t hv
  by_cases hsa : pyEq (dictGet t "module_and_function" Val.none)
      (.str "saltcheck.state_apply") = true
  · rw [pyEq_str_eq _ _ hsa]
    rfl
  · have ho := other_points_le t
    unfold required_points at hle
    rw [if_neg (by simp [hs]), if_neg (by simp [hsa])] at hle
    have h4 : 4 ≤ n + other_points t := by
      split at hle <;> omega
    exact mf_points_pos_truthy o _ n hmp (by omega)

theorem dictGet_of_dictIndex (t : List (String × Val)) (k : String) (v d : Val)
    (h : dictIndex t k = .ok v) : dictGet t k d = v := by
  unfold dictIndex at h
  unfold dictGet
  cases hl : t.lookup k with
  | none => rw [hl] at h; exact Except.noConfusion h
  | some w =>
    rw [hl] at h
    replace h : Except.ok w = Except.ok v := h
    injection h

theorem dictIndex_of_truthy (t : List (String × Val)) (k : String)
    (h : pyTruthy (dictGet t k Val.none) = true) :
    dictIndex t k = .ok (dictGet t k Val.none) := by
  unfold dictGet dictIndex
  cases hl : t.lookup k with
  | none =>
    rw [dictGet, hl] at h
    exact absurd h (by simp [pyTruthy])
  | some w => rfl

theorem assertions_list_nonempty_names (x : String) (h : x ∈ assertions_list) :
    x ≠ "" := by
  fin_cases h <;> decide

theorem pyInStrList_truthy (v : Val)
    (h : pyInStrList v assertions_list = true) : pyTruthy v = true := by
  obtain ⟨x, hx, hv⟩ := List.any_eq_true.mp h
  rw [pyEq_str_eq v x hv]
  have hne := assertions_list_nonempty_names x hx
  simp [pyTruthy, hne]

theorem dispatch_recognized_wfs (assertion e a : Val) (pr : Bool) (s : String)
    (hrec : pyInStrList assertion assertions_list = true)
    (h : dispatch assertion e a pr = .ok s) : wellFormedStatus s := by
  unfold dispatch at h
  by_cases hc1 : pyEq assertion (.str "assertEqual") = true
  · rw [if_pos hc1] at h
    exact (by injection h with hv2; exact hv2 ▸ wfs_assert_equal e a pr)
  · rw [if_neg hc1] at h
    by_cases hc2 : pyEq assertion (.str "assertNotEqual") = true
    · rw [if_pos hc2] at h
      exact (by injection h with hv2; exact hv2 ▸ wfs_assert_not_equal e a pr)
    · rw [if_neg hc2] at h
      by_cases hc3 : pyEq assertion (.str "assertTrue") = true
      · rw [if_pos hc3] at h
        exact (by injection h with hv2; exact hv2 ▸ wfs_assert_true a)
      · rw [if_neg hc3] at h
        by_cases hc4 : pyEq assertion (.str "assertFalse") = true
        · rw [if_pos hc4] at h
          exact (by injection h with hv2; exact hv2 ▸ wfs_assert_false a)
        · rw [if_neg hc4] at h
          by_cases hc5 : pyEq assertion (.str "assertIn") = true
          · rw [if_pos hc5] at h
            exact wfs_assert_in e a pr s h
          · rw [if_neg hc5] at h
            by_cases hc6 : pyEq assertion (.str "assertNotIn") = true
            · rw [if_pos hc6] at h
              exact wfs_assert_not_in e a pr s h
            · rw [if_neg hc6] at h
              by_cases hc7 : pyEq assertion (.str "assertGreater") = true
              · rw [if_pos hc7] at h
                exact wfs_cmp pyGtE e a s h
              · rw [if_neg hc7] at h
                by_cases hc8 : pyEq assertion (.str "assertGreaterEqual") = true
                · rw [if_pos hc8] at h
                  exact wfs_cmp pyGeE e a s h
                · rw [if_neg hc8] at h
                  by_cases hc9 : pyEq assertion (.str "assertLess") = true
                  · rw [if_pos hc9] at h
                    exact wfs_cmp pyLtE e a s h
                  · rw [if_neg hc9] at h
                    by_cases hc10 : pyEq assertion (.str "assertLessEqual") = true
                    · rw [if_pos hc10] at h
                      exact wfs_cmp pyLeE e a s h
                    · rw [if_neg hc10] at h
                      by_cases hc11 : pyEq assertion (.str "assertEmpty") = true
                      · rw [if_pos hc11] at h
                        exact (by injection h with hv2; exact hv2 ▸ wfs_assert_empty a)
                      · rw [if_neg hc11] at h
                        by_cases hc12 : pyEq assertion (.str "assertNotEmpty") = true
                        · rw [if_pos hc12] at h
                          exact (by injection h with hv2; exact hv2 ▸ wfs_assert_not_empty a)
                        · rw [if_neg hc12] at h
                          exfalso
                          simp only [pyInStrList, assertions_list, List.any_cons, List.any_nil,
                            Bool.or_eq_true, Bool.or_false, hc1, hc2, hc3, hc4, hc5, hc6, hc7, hc8, hc9, hc10, hc11, hc12] at hrec
                          simp at hrec

theorem ne_bad_of_fail_colon (s : String) (h : beginsWith "Fail: " s) :
    s ≠ "Fail - bad assertion" := by
  intro he
  subst he
  obtain ⟨t, ht⟩ := h
  have h6 := congrArg (fun l => List.take 6 l) ht
  simp only at h6
  rw [List.take_append_of_le_length (by decide)] at h6
  exact absurd h6 (by decide)

theorem wfs_ne_bad (s : String) (h : wellFormedStatus s) :
    s ≠ "Fail - bad assertion" := by
  rcases h with hp | hf
  · subst hp; decide
  · exact ne_bad_of_fail_colon s hf

theorem run_test_exec (o : Oracle) (cmd : Cmd) (t : List (String × Val))
    (elapsed : ℚ) (mf : Val) (kw : List (String × Val))
    (hv : is_valid_test o t = .ok true)
    (hs : pyTruthy (dictGet t "skip" (.bool false)) = false)
    (hmf : dictIndex t "module_and_function" = .ok mf)
    (hkw : effective_kwargs t = .ok kw) :
    run_test o cmd t elapsed = (do
      let assertion ← effective_assertion t mf
      let actual_return ←
        call_salt_command cmd mf (dictGet t "args" Val.none) kw
          (dictGet t "assertion_section" Val.none)
      let expected_return ←
        coerced_expected assertion (dictGet t "expected-return" Val.none)
          actual_return
      let value ← dispatch assertion expected_return actual_return
        (pyTruthy (dictGet t "print_result" (.bool true)))
      Except.ok ⟨value, round4 elapsed⟩) := by
  unfold run_test
  rw [hv, hs, hmf, hkw]
  rfl

theorem bind_ok_elim {α β : Type} (e : Except PyErr α) (k : α → Except PyErr β)
    (b : β) (h : (e >>= k) = .ok b) : ∃ a, e = .ok a ∧ k a = .ok b := by
  cases e with
  | error er => exact Except.noConfusion h
  | ok a => exact ⟨a, rfl, h⟩

theorem run_test_error (o : Oracle) (cmd : Cmd) (t : List (String × Val))
    (elapsed : ℚ) (e : PyErr) (hv : is_valid_test o t = .error e) :
    run_test o cmd t elapsed = .error e := by
  unfold run_test; rw [hv]; rfl

theorem run_test_invalid (o : Oracle) (cmd : Cmd) (t : List (String × Val))
    (elapsed : ℚ) (hv : is_valid_test o t = .ok false) :
    run_test o cmd t elapsed = .ok ⟨"Fail - invalid test", round4 elapsed⟩ := by
  unfold run_test; rw [hv]; rfl

theorem run_test_skip (o : Oracle) (cmd : Cmd) (t : List (String × Val))
    (elapsed : ℚ) (hv : is_valid_test o t = .ok true)
    (hs : pyTruthy (dictGet t "skip" (.bool false)) = true) :
    run_test o cmd t elapsed = .ok ⟨"Skip", 0⟩ := by
  unfold run_test; rw [hv, hs]; rfl

theorem run_test_kw_error (o : Oracle) (cmd : Cmd) (t : List (String × Val))
    (elapsed : ℚ) (mf : Val) (e : PyErr)
    (hv : is_valid_test o t = .ok true)
    (hs : pyTruthy (dictGet t "skip" (.bool false)) = false)
    (hmf : dictIndex t "module_and_function" = .ok mf)
    (hkw : effective_kwargs t = .error e) :
    run_test o cmd t elapsed = .error e := by
  unfold run_test; rw [hv, hs, hmf, hkw]; rfl

/-- C10: for every test definition that passes validation and is not
skipped, the effective assertion is one of the twelve recognized kinds, so
whenever `run_test` returns a result its status is never
"Fail - bad assertion" — for any oracle, collaborator, test mapping and
elapsed time. -/
theorem C10_never_bad_assertion (o : Oracle) (cmd : Cmd)
    (t : List (String × Val)) (elapsed : ℚ) (r : TestResult)
    (h : run_test o cmd t elapsed = .ok r) :
    r.status ≠ "Fail - bad assertion" := by
  cases hv : is_valid_test o t with
  | error e =>
    rw [run_test_error o cmd t elapsed e hv] at h
    exact Except.noConfusion h
  | ok valid =>
    cases valid with
    | false =>
      rw [run_test_invalid o cmd t elapsed hv] at h
      injection h with h2
      rw [← h2]
      exact (by decide : ("Fail - invalid test" : String) ≠ "Fail - bad assertion")
    | true =>
      by_cases hsk : pyTruthy (dictGet t "skip" (.bool false)) = true
      · rw [run_test_skip o cmd t elapsed hv hsk] at h
        injection h with h2
        rw [← h2]
        exact (by decide : ("Skip" : String) ≠ "Fail - bad assertion")
      · have hsf : pyTruthy (dictGet t "skip" (.bool false)) = false := by
          simpa using hsk
        have hmt := valid_mf_truthy o t hv hsf
        have hmf := dictIndex_of_truthy t "module_and_function" hmt
        cases hkw : effective_kwargs t with
        | error e =>
          rw [run_test_kw_error o cmd t elapsed _ e hv hsf hmf hkw] at h
          exact Except.noConfusion h
        | ok kw =>
          rw [run_test_exec o cmd t elapsed _ kw hv hsf hmf hkw] at h
          obtain ⟨assertion, ha, h⟩ := bind_ok_elim _ _ _ h
          obtain ⟨actual, hc, h⟩ := bind_ok_elim _ _ _ h
          obtain ⟨expected, hx, h⟩ := bind_ok_elim _ _ _ h
          obtain ⟨s, hd, h⟩ := bind_ok_elim _ _ _ h
          replace h : Except.ok (⟨s, round4 elapsed⟩ : TestResult)
            = Except.ok r := h
          injection h with h2
          rw [← h2]
          have hrec : pyInStrList assertion assertions_list = true := by
            unfold effective_assertion at ha
            by_cases hsa : pyEq (dictGet t "module_and_function" Val.none)
                (.str "saltcheck.state_apply") = true
            · rw [if_pos hsa] at ha
              injection ha with ha2
              rw [← ha2]
              decide
            · rw [if_neg hsa] at ha
              have := dictGet_of_dictIndex t "assertion" assertion Val.none ha
              rw [← this]
              exact valid_assertion_recognized o t hv hsf (by simpa using hsa)
          exact wfs_ne_bad s (dispatch_recognized_wfs assertion expected actual
            (pyTruthy (dictGet t "print_result" (.bool true))) s hrec hd)

/-- C10 witness: an empty test definition scores 0 of 6 points, so the
returned status is "Fail - invalid test" — not "Fail - bad assertion". -/
theorem C10_witness :
    (⟨"Fail - invalid test", round4 0⟩ : TestResult).status
      ≠ "Fail - bad assertion" :=
  C10_never_bad_assertion oracle0 cmd_echo [] 0
    ⟨"Fail - invalid test", round4 0⟩ (by rfl)

theorem is_valid_function_ok (o : Oracle) (m f : String)
    (hor : o.listFunctions m = .error LookupErr.saltException ∨
      ∃ l, o.listFunctions m = .ok l) :
    ∃ b, is_valid_function o m f = .ok b := by
  unfold is_valid_function
  rcases hor with hsalt | ⟨l, hl⟩
  · rw [hsalt]
    exact ⟨_, rfl⟩
  · rw [hl]
    exact ⟨_, rfl⟩

theorem mf_points_ok (o : Oracle) (m : Val)
    (hm : pyTruthy m = false ∨ ∃ a b, splitUnpack2 m = .ok (a, b))
    (hor : ∀ mo, o.listFunctions mo = .error LookupErr.saltException ∨
      ∃ l, o.listFunctions mo = .ok l) :
    ∃ n, mf_points o m = .ok n := by
  unfold mf_points
  by_cases ht : pyTruthy m = true
  · rw [if_pos ht]
    rcases hm with hf | ⟨a, b, hsp⟩
    · rw [ht] at hf; exact Bool.noConfusion hf
    · rw [hsp]
      show ∃ n, (do
        let fnOk ← is_valid_function o (a, b).1 (a, b).2
        Except.ok ((1 + if is_valid_module o (a, b).1 then 1 else 0)
          + if fnOk then 1 else 0)) = Except.ok n
      obtain ⟨fb, hfb⟩ := is_valid_function_ok o a b (hor a)
      rw [show is_valid_function o (a, b).1 (a, b).2 = Except.ok fb from hfb]
      exact ⟨_, rfl⟩
  · rw [if_neg ht]
    exact ⟨0, rfl⟩

/-- C9 (amended): for every test definition with a truthy `skip` whose
`module_and_function` field is absent/falsy or a string containing exactly
one dot (and an introspection collaborator that only fails with salt
lookup errors), `run_test` returns exactly `{status "Skip",
duration 0.0}`, regardless of the validity or presence of every other
field.  (The original claim without the shape proviso fails: validation
splits a truthy `module_and_function` before the skip short-circuit, and a
malformed name raises — see the counterexample.) -/
theorem C9_skip_returns_skip (o : Oracle) (cmd : Cmd)
    (t : List (String × Val)) (elapsed : ℚ)
    (hsk : pyTruthy (dictGet t "skip" (.bool false)) = true)
    (hmf : mfShapeOk t)
    (hor : ∀ m, o.listFunctions m = .error LookupErr.saltException ∨
      ∃ l, o.listFunctions m = .ok l) :
    run_test o cmd t elapsed = .ok ⟨"Skip", 0⟩ := by
  obtain ⟨n, hn⟩ := mf_points_ok o (dictGet t "module_and_function" Val.none)
    hmf hor
  have hv := valid_true_intro o t n hn
    (by rw [required_points, if_pos hsk]; exact Nat.zero_le _)
  exact run_test_skip o cmd t elapsed hv hsk

/-- C9 witness: a bare `skip: true` definition is returned as a Skip with
duration 0. -/
theorem C9_witness :
    run_test oracle0 cmd_echo [("skip", .bool true)] 0 = .ok ⟨"Skip", 0⟩ :=
  C9_skip_returns_skip oracle0 cmd_echo [("skip", .bool true)] 0 rfl
    (Or.inl rfl) (fun _ => Or.inr ⟨_, rfl⟩)

/-- C9 counterexample: with `skip: true` but a dotless
`module_and_function` text "abc", `run_test` raises a `ValueError` while
splitting the name during validation instead of returning a Skip record. -/
theorem C9_cx_skip_malformed_name :
    run_test oracle0 cmd_echo
      [("skip", .bool true), ("module_and_function", .str "abc")] 0
      = .error PyErr.valueError := rfl

/-- C6: for every valid, non-skipped test definition whose
`module_and_function` is the special alias `saltcheck.state_apply`, the
executed assertion is `assertNotEmpty` applied to the operation's result —
regardless of any `assertion` field declared in the definition (no
hypothesis below mentions that field). -/
theorem C6_state_apply_forces_not_empty (o : Oracle) (cmd : Cmd)
    (t : List (String × Val)) (elapsed : ℚ) (kw : List (String × Val)) (a : Val)
    (hv : is_valid_test o t = .ok true)
    (hs : pyTruthy (dictGet t "skip" (.bool false)) = false)
    (hmf : dictIndex t "module_and_function" = .ok (.str "saltcheck.state_apply"))
    (hkw : effective_kwargs t = .ok kw)
    (hc : call_salt_command cmd (.str "saltcheck.state_apply")
      (dictGet t "args" Val.none) kw
      (dictGet t "assertion_section" Val.none) = .ok a) :
    run_test o cmd t elapsed = .ok ⟨assert_not_empty a, round4 elapsed⟩ := by
  rw [run_test_exec o cmd t elapsed _ kw hv hs hmf hkw]
  have h1 : effective_assertion t (.str "saltcheck.state_apply")
      = Except.ok (Val.str "assertNotEmpty") := rfl
  rw [h1, hc]
  rfl

/-- C6 witness: a definition declaring `assertion: assertEqual` on the
alias still executes `assertNotEmpty` — the non-empty applied-state result
"common" passes. -/
theorem C6_witness :
    run_test oracle0 cmd_echo
      [("module_and_function", .str "saltcheck.state_apply"),
       ("args", .list [.str "common"]),
       ("assertion", .str "assertEqual")] 0
      = .ok ⟨"Pass", round4 0⟩ :=
  C6_state_apply_forces_not_empty oracle0 cmd_echo
    [("module_and_function", .str "saltcheck.state_apply"),
     ("args", .list [.str "common"]),
     ("assertion", .str "assertEqual")] 0 [] (.str "common")
    (by rfl) rfl rfl rfl (by rfl)

theorem classes_ok {α : Type} (e : Except PyErr α) (a : α) (h : e = .ok a) :
    ExcClasses e := Or.inl ⟨a, h⟩

theorem classes_bind {α β : Type} (e : Except PyErr α) (k : α → Except PyErr β)
    (he : ExcClasses e) (hk : ∀ a, ExcClasses (k a)) : ExcClasses (e >>= k) := by
  rcases he with ⟨a, ha⟩ | ⟨m, ha⟩ | ha <;> rw [ha]
  · exact hk a
  · exact Or.inr (Or.inl ⟨m, rfl⟩)
  · exact Or.inr (Or.inr rfl)

theorem pyIn_classes (e c : Val) : ExcClasses (pyIn e c) := by
  cases c with
  | str s => cases e <;> first | exact Or.inl ⟨_, rfl⟩ | exact Or.inr (Or.inr rfl)
  | list xs => exact Or.inl ⟨_, rfl⟩
  | dict kvs => exact Or.inl ⟨_, rfl⟩
  | none => exact Or.inr (Or.inr rfl)
  | bool b => exact Or.inr (Or.inr rfl)
  | int n => exact Or.inr (Or.inr rfl)

theorem pyLtE_classes (a b : Val) : ExcClasses (pyLtE a b) := by
  unfold pyLtE
  cases pyLt a b
  · exact Or.inr (Or.inr rfl)
  · exact Or.inl ⟨_, rfl⟩

theorem pyLeE_classes (a b : Val) : ExcClasses (pyLeE a b) := by
  unfold pyLeE
  exact classes_bind _ _ (pyLtE_classes a b) (fun l => Or.inl ⟨_, rfl⟩)

theorem pyGtE_classes (a b : Val) : ExcClasses (pyGtE a b) := pyLtE_classes b a

theorem pyGeE_classes (a b : Val) : ExcClasses (pyGeE a b) := pyLeE_classes b a

theorem assert_in_classes (e r : Val) (pr : Bool) :
    ExcClasses (assert_in e r pr) := by
  unfold assert_in
  refine classes_bind _ _ (pyIn_classes e r) (fun mem => ?_)
  split_ifs <;> exact Or.inl ⟨_, rfl⟩

theorem assert_not_in_classes (e r : Val) (pr : Bool) :
    ExcClasses (assert_not_in e r pr) := by
  unfold assert_not_in
  refine classes_bind _ _ (pyIn_classes e r) (fun mem => ?_)
  split_ifs <;> exact Or.inl ⟨_, rfl⟩

theorem cmp_assert_classes (f : Val → Val → Except PyErr Bool) (e r : Val)
    (hf : ExcClasses (f e r)) :
    ExcClasses (do
      let b ← f e r
      if b then Except.ok "Pass"
      else Except.ok ("Fail: " ++ pyStr r ++ " not False")) := by
  refine classes_bind _ _ hf (fun b => ?_)
  cases b <;> exact Or.inl ⟨_, rfl⟩


theorem pyToInt_classes (x : Val) :
    (∃ v, pyToInt x = .ok v) ∨ pyToInt x = .error .typeError ∨
      pyToInt x = .error .valueError := by
  cases x with
  | none => exact Or.inr (Or.inl rfl)
  | bool b => exact Or.inl ⟨_, rfl⟩
  | int n => exact Or.inl ⟨_, rfl⟩
  | list xs => exact Or.inr (Or.inl rfl)
  | dict kvs => exact Or.inr (Or.inl rfl)
  | str s =>
    show (∃ v, (match parseIntChars (trimChars s.data) with
      | some n => Except.ok (Val.int n)
      | Option.none => Except.error PyErr.valueError) = Except.ok v) ∨
      (match parseIntChars (trimChars s.data) with
      | some n => Except.ok (Val.int n)
      | Option.none => Except.error PyErr.valueError) = Except.error PyErr.typeError ∨
      (match parseIntChars (trimChars s.data) with
      | some n => Except.ok (Val.int n)
      | Option.none => Except.error PyErr.valueError) = Except.error PyErr.valueError
    cases parseIntChars (trimChars s.data)
    · exact Or.inr (Or.inr rfl)
    · exact Or.inl ⟨_, rfl⟩

theorem unpackStar_classes (x : Val) :
    (∃ l, unpackStar x = .ok l) ∨ unpackStar x = .error .typeError := by
  cases x <;> first | exact Or.inl ⟨_, rfl⟩ | exact Or.inr rfl

theorem pairEntry_classes (x : Val) :
    (∃ kv, pairEntry x = .ok kv) ∨ pairEntry x = .error .typeError ∨
      pairEntry x = .error .valueError := by
  cases x with
  | none => exact Or.inr (Or.inl rfl)
  | bool b => exact Or.inr (Or.inl rfl)
  | int n => exact Or.inr (Or.inl rfl)
  | dict kvs => exact Or.inr (Or.inr rfl)
  | str s =>
    show (∃ kv, (match s.data with
      | [k, v] => Except.ok (String.singleton k, Val.str (String.singleton v))
      | _ => Except.error PyErr.valueError) = Except.ok kv) ∨
      (match s.data with
      | [k, v] => Except.ok (String.singleton k, Val.str (String.singleton v))
      | _ => Except.error PyErr.valueError) = Except.error PyErr.typeError ∨
      (match s.data with
      | [k, v] => Except.ok (String.singleton k, Val.str (String.singleton v))
      | _ => Except.error PyErr.valueError) = Except.error PyErr.valueError
    match s.data with
    | [] => exact Or.inr (Or.inr rfl)
    | [c] => exact Or.inr (Or.inr rfl)
    | [c, d] => exact Or.inl ⟨_, rfl⟩
    | c :: d :: e :: rest => exact Or.inr (Or.inr rfl)
  | list ys =>
    match ys with
    | [] => exact Or.inr (Or.inr rfl)
    | [a] => cases a <;> exact Or.inr (Or.inr rfl)
    | [a, v] =>
      cases a <;> first | exact Or.inl ⟨_, rfl⟩ | exact Or.inr (Or.inl rfl)
    | a :: b :: c :: rest => cases a <;> exact Or.inr (Or.inr rfl)

theorem dictFromPairsAux_classes (xs : List Val) :
    ∀ acc, (∃ kvs, dictFromPairsAux acc xs = .ok kvs) ∨
      dictFromPairsAux acc xs = .error .typeError ∨
      dictFromPairsAux acc xs = .error .valueError := by
  induction xs with
  | nil => exact fun acc => Or.inl ⟨_, rfl⟩
  | cons x rest ih =>
    intro acc
    show (∃ kvs, (do
        let kv ← pairEntry x
        dictFromPairsAux (odInsert acc kv.1 kv.2) rest) = Except.ok kvs) ∨ (do
        let kv ← pairEntry x
        dictFromPairsAux (odInsert acc kv.1 kv.2) rest) = Except.error PyErr.typeError ∨ (do
        let kv ← pairEntry x
        dictFromPairsAux (odInsert acc kv.1 kv.2) rest) = Except.error PyErr.valueError
    rcases pairEntry_classes x with ⟨kv, hkv⟩ | hkv | hkv <;> rw [hkv]
    · exact ih (odInsert acc kv.1 kv.2)
    · exact Or.inr (Or.inl rfl)
    · exact Or.inr (Or.inr rfl)

theorem pyToDict_classes (x : Val) :
    (∃ v, pyToDict x = .ok v) ∨ pyToDict x = .error .typeError ∨
      pyToDict x = .error .valueError := by
  cases x with
  | dict kvs => exact Or.inl ⟨_, rfl⟩
  | none => exact Or.inr (Or.inl rfl)
  | bool b => exact Or.inr (Or.inl rfl)
  | int n => exact Or.inr (Or.inl rfl)
  | str s =>
    show (∃ v, (if s = "" then Except.ok (Val.dict [])
        else Except.error PyErr.valueError) = Except.ok v) ∨
      (if s = "" then Except.ok (Val.dict [])
        else Except.error PyErr.valueError) = Except.error PyErr.typeError ∨
      (if s = "" then Except.ok (Val.dict [])
        else Except.error PyErr.valueError) = Except.error PyErr.valueError
    split
    · exact Or.inl ⟨_, rfl⟩
    · exact Or.inr (Or.inr rfl)
  | list xs =>
    show (∃ v, (do
        let kvs ← dictFromPairs xs
        Except.ok (Val.dict kvs)) = Except.ok v) ∨ (do
        let kvs ← dictFromPairs xs
        Except.ok (Val.dict kvs)) = Except.error PyErr.typeError ∨ (do
        let kvs ← dictFromPairs xs
        Except.ok (Val.dict kvs)) = Except.error PyErr.valueError
    rcases dictFromPairsAux_classes xs [] with ⟨kvs, hk⟩ | hk | hk <;>
      rw [show dictFromPairs xs = dictFromPairsAux [] xs from rfl, hk]
    · exact Or.inl ⟨_, rfl⟩
    · exact Or.inr (Or.inl rfl)
    · exact Or.inr (Or.inr rfl)

theorem pyConstruct_classes (r x : Val) :
    (∃ v, pyConstruct r x = .ok v) ∨ pyConstruct r x = .error .typeError ∨
      pyConstruct r x = .error .valueError := by
  cases r with
  | none => exact Or.inr (Or.inl rfl)
  | bool b => exact Or.inl ⟨_, rfl⟩
  | int n => exact pyToInt_classes x
  | str s => exact Or.inl ⟨_, rfl⟩
  | list xs =>
    show (∃ v, (do
        let ys ← unpackStar x
        Except.ok (Val.list ys)) = Except.ok v) ∨ (do
        let ys ← unpackStar x
        Except.ok (Val.list ys)) = Except.error PyErr.typeError ∨ (do
        let ys ← unpackStar x
        Except.ok (Val.list ys)) = Except.error PyErr.valueError
    rcases unpackStar_classes x with ⟨l, hl⟩ | hl <;> rw [hl]
    · exact Or.inl ⟨_, rfl⟩
    · exact Or.inr (Or.inl rfl)
  | dict kvs => exact pyToDict_classes x

theorem cast_expected_classes (e r : Val) : ExcClasses (cast_expected e r) := by
  show ExcClasses (match pyConstruct r
      (if pyEq e (.str "False")
          && (match r with | .bool _ => true | _ => false)
        then Val.bool false else e) with
    | .ok v => Except.ok v
    | .error .valueError => Except.ok e
    | .error er => Except.error er)
  rcases pyConstruct_classes r
      (if pyEq e (.str "False")
          && (match r with | .bool _ => true | _ => false)
        then Val.bool false else e) with ⟨v, hv⟩ | hv | hv <;> rw [hv]
  · exact Or.inl ⟨_, rfl⟩
  · exact Or.inr (Or.inr rfl)
  · exact Or.inl ⟨_, rfl⟩

theorem dispatch_classes (assertion e a : Val) (pr : Bool) :
    ExcClasses (dispatch assertion e a pr) := by
  unfold dispatch
  by_cases hc1 : pyEq assertion (.str "assertEqual") = true
  · rw [if_pos hc1]
    exact Or.inl ⟨_, rfl⟩
  · rw [if_neg hc1]
    by_cases hc2 : pyEq assertion (.str "assertNotEqual") = true
    · rw [if_pos hc2]
      exact Or.inl ⟨_, rfl⟩
    · rw [if_neg hc2]
      by_cases hc3 : pyEq assertion (.str "assertTrue") = true
      · rw [if_pos hc3]
        exact Or.inl ⟨_, rfl⟩
      · rw [if_neg hc3]
        by_cases hc4 : pyEq assertion (.str "assertFalse") = true
        · rw [if_pos hc4]
          exact Or.inl ⟨_, rfl⟩
        · rw [if_neg hc4]
          by_cases hc5 : pyEq assertion (.str "assertIn") = true
          · rw [if_pos hc5]
            exact assert_in_classes e a pr
          · rw [if_neg hc5]
            by_cases hc6 : pyEq assertion (.str "assertNotIn") = true
            · rw [if_pos hc6]
              exact assert_not_in_classes e a pr
            · rw [if_neg hc6]
              by_cases hc7 : pyEq assertion (.str "assertGreater") = true
              · rw [if_pos hc7]
                exact cmp_assert_classes pyGtE e a (pyGtE_classes e a)
              · rw [if_neg hc7]
                by_cases hc8 : pyEq assertion (.str "assertGreaterEqual") = true
                · rw [if_pos hc8]
                  exact cmp_assert_classes pyGeE e a (pyGeE_classes e a)
                · rw [if_neg hc8]
                  by_cases hc9 : pyEq assertion (.str "assertLess") = true
                  · rw [if_pos hc9]
                    exact cmp_assert_classes pyLtE e a (pyLtE_classes e a)
                  · rw [if_neg hc9]
                    by_cases hc10 : pyEq assertion (.str "assertLessEqual") = true
                    · rw [if_pos hc10]
                      exact cmp_assert_classes pyLeE e a (pyLeE_classes e a)
                    · rw [if_neg hc10]
                      by_cases hc11 : pyEq assertion (.str "assertEmpty") = true
                      · rw [if_pos hc11]
                        exact Or.inl ⟨_, rfl⟩
                      · rw [if_neg hc11]
                        by_cases hc12 : pyEq assertion (.str "assertNotEmpty") = true
                        · rw [if_pos hc12]
                          exact Or.inl ⟨_, rfl⟩
                        · rw [if_neg hc12]
                          exact Or.inl ⟨_, rfl⟩

theorem unpack_args_classes (args : Val) :
    (∃ l, unpack_args args = .ok l) ∨ unpack_args args = .error .typeError := by
  unfold unpack_args
  split
  · exact unpackStar_classes args
  · exact Or.inl ⟨_, rfl⟩

theorem invoke_classes (cmd : Cmd) (f : Val) (argsList : List Val)
    (kw : List (String × Val)) : ExcClasses (invoke cmd f argsList kw) := by
  unfold invoke
  cases cmd f argsList kw
  · exact Or.inr (Or.inl ⟨_, rfl⟩)
  · exact Or.inl ⟨_, rfl⟩

theorem apply_section_classes (value sec : Val) :
    ExcClasses (apply_section value sec) := by
  cases value <;> simp only [apply_section] <;>
    first
      | exact Or.inl ⟨_, rfl⟩
      | (split
         · cases sec <;>
             first
               | exact Or.inl ⟨_, rfl⟩
               | exact Or.inr (Or.inr rfl)
         · exact Or.inl ⟨_, rfl⟩)

theorem call_salt_classes (cmd : Cmd) (f args : Val) (kw : List (String × Val))
    (sec : Val) : ExcClasses (call_salt_command cmd f args kw sec) := by
  unfold call_salt_command
  refine classes_bind _ _ ?_ (fun argsList => ?_)
  · rcases unpack_args_classes args with ⟨l, hl⟩ | hl <;> rw [hl]
    · exact Or.inl ⟨_, rfl⟩
    · exact Or.inr (Or.inr rfl)
  · exact classes_bind _ _ (invoke_classes cmd f argsList kw)
      (fun value => apply_section_classes value sec)

theorem pyIn_class2 (e c : Val) :
    (∃ b, pyIn e c = .ok b) ∨ pyIn e c = .error .typeError := by
  cases c with
  | str s => cases e <;> first | exact Or.inl ⟨_, rfl⟩ | exact Or.inr rfl
  | list xs => exact Or.inl ⟨_, rfl⟩
  | dict kvs => exact Or.inl ⟨_, rfl⟩
  | none => exact Or.inr rfl
  | bool b => exact Or.inr rfl
  | int n => exact Or.inr rfl

theorem inject_or_clean_classes (kwargs : Val) (key : String) (data : Val) :
    (∃ v, inject_or_clean kwargs key data = .ok v) ∨
    inject_or_clean kwargs key data = .error .attributeError ∨
    inject_or_clean kwargs key data = .error .typeError := by
  unfold inject_or_clean
  by_cases ht : pyTruthy data = true
  · rw [if_pos ht]
    cases kwargs <;>
      first
        | exact Or.inl ⟨_, rfl⟩
        | exact Or.inr (Or.inl rfl)
  · rw [if_neg ht]
    rcases pyIn_class2 (.str key) kwargs with ⟨mem, hm⟩ | hm <;> rw [hm]
    · cases mem with
      | false => exact Or.inl ⟨_, rfl⟩
      | true =>
          cases kwargs <;>
            first
              | exact Or.inl ⟨_, rfl⟩
              | exact Or.inr (Or.inl rfl)
              | exact Or.inr (Or.inr rfl)
    · exact Or.inr (Or.inr rfl)

theorem kw_chain_classes {α : Type} (e : Except PyErr Val)
    (k : Val → Except PyErr α)
    (he : (∃ v, e = .ok v) ∨ e = .error .attributeError ∨
      e = .error .typeError)
    (hk : ∀ v, (∃ a, k v = .ok a) ∨ k v = .error .attributeError ∨
      k v = .error .typeError) :
    (∃ a, (e >>= k) = .ok a) ∨ (e >>= k) = .error .attributeError ∨
      (e >>= k) = .error .typeError := by
  rcases he with ⟨v, hv⟩ | hv | hv <;> rw [hv]
  · exact hk v
  · exact Or.inr (Or.inl rfl)
  · exact Or.inr (Or.inr rfl)

theorem effective_kwargs_classes (t : List (String × Val)) :
    (∃ kw, effective_kwargs t = .ok kw) ∨
    effective_kwargs t = .error .attributeError ∨
    effective_kwargs t = .error .typeError := by
  unfold effective_kwargs
  refine kw_chain_classes _ _ (inject_or_clean_classes _ "pillar" _)
    (fun v2 => kw_chain_classes _ _ (inject_or_clean_classes v2 "grain" _)
      (fun v3 => ?_))
  cases v3 <;>
    first
      | exact Or.inl ⟨_, rfl⟩
      | exact Or.inr (Or.inr rfl)

theorem is_valid_function_classes (o : Oracle) (m f : String) :
    ExcClasses (is_valid_function o m f) := by
  unfold is_valid_function
  cases o.listFunctions m with
  | ok l => exact Or.inl ⟨_, rfl⟩
  | error e =>
    cases e
    · exact Or.inl ⟨_, rfl⟩
    · exact Or.inr (Or.inl ⟨_, rfl⟩)

theorem mf_points_classes (o : Oracle) (m : Val)
    (hm : pyTruthy m = false ∨ ∃ a b, splitUnpack2 m = .ok (a, b)) :
    ExcClasses (mf_points o m) := by
  unfold mf_points
  by_cases ht : pyTruthy m = true
  · rw [if_pos ht]
    rcases hm with hf | ⟨a, b, hsp⟩
    · rw [ht] at hf; exact Bool.noConfusion hf
    · rw [hsp]
      show ExcClasses (do
        let fnOk ← is_valid_function o (a, b).1 (a, b).2
        Except.ok (1 + (if is_valid_module o (a, b).1 then 1 else 0)
          + (if fnOk then 1 else 0)))
      exact classes_bind _ _ (is_valid_function_classes o a b)
        (fun fnOk => Or.inl ⟨_, rfl⟩)
  · rw [if_neg ht]
    exact Or.inl ⟨_, rfl⟩

theorem is_valid_test_classes (o : Oracle) (t : List (String × Val))
    (hm : mfShapeOk t) : ExcClasses (is_valid_test o t) := by
  unfold is_valid_test
  exact classes_bind _ _
    (mf_points_classes o (dictGet t "module_and_function" Val.none) hm)
    (fun mfp => Or.inl ⟨_, rfl⟩)

/-- C3 (amended): for every test definition given as a mapping whose
`module_and_function` is absent/falsy or a string with exactly one dot,
`run_test` either returns exactly one record (a textual status and a
numeric duration), or the escaping exception is an exception raised inside
the external invocation collaborator (`.collab`, from the operation call or
the function-existence lookup), or it is a Python `TypeError` (from an
ill-typed field, an impossible coercion, or a type-incompatible
membership/ordering comparison), or it is a Python `AttributeError` from
calling `update`/`pop` on a truthy non-mapping `kwargs` field (lines
594-606).  (The original "only the invocation collaborator can abort a
run" fails: a `module_and_function` without exactly one dot raises a
`ValueError` during validation before any result is recorded — see the
counterexample.) -/
theorem C3_failure_classes (o : Oracle) (cmd : Cmd) (t : List (String × Val))
    (elapsed : ℚ) (hmf : mfShapeOk t) :
    RunClasses (run_test o cmd t elapsed) := by
  rcases is_valid_test_classes o t hmf with ⟨b, hv⟩ | ⟨m, hv⟩ | hv
  · cases b with
    | false =>
        exact Or.inl (classes_ok _ _ (run_test_invalid o cmd t elapsed hv))
    | true =>
      by_cases hsk : pyTruthy (dictGet t "skip" (.bool false)) = true
      · exact Or.inl (classes_ok _ _ (run_test_skip o cmd t elapsed hv hsk))
      · have hsf : pyTruthy (dictGet t "skip" (.bool false)) = false := by
          simpa using hsk
        have hmt := valid_mf_truthy o t hv hsf
        have hmfi := dictIndex_of_truthy t "module_and_function" hmt
        rcases effective_kwargs_classes t with ⟨kw, hkw⟩ | hkw | hkw
        · refine Or.inl ?_
          rw [run_test_exec o cmd t elapsed _ kw hv hsf hmfi hkw]
          refine classes_bind _ _ ?_ (fun assertion => ?_)
          · unfold effective_assertion
            by_cases hsa : pyEq (dictGet t "module_and_function" Val.none)
                (.str "saltcheck.state_apply") = true
            · rw [if_pos hsa]
              exact Or.inl ⟨_, rfl⟩
            · rw [if_neg hsa]
              have hrec := valid_assertion_recognized o t hv hsf
                (by simpa using hsa)
              exact Or.inl ⟨_, dictIndex_of_truthy t "assertion"
                (pyInStrList_truthy _ hrec)⟩
          · refine classes_bind _ _ (call_salt_classes cmd _ _ kw _)
              (fun actual => ?_)
            refine classes_bind _ _ ?_ (fun expected => ?_)
            · unfold coerced_expected
              split
              · exact cast_expected_classes _ actual
              · exact Or.inl ⟨_, rfl⟩
            · exact classes_bind _ _
                (dispatch_classes assertion expected actual _)
                (fun value => Or.inl ⟨_, rfl⟩)
        · exact Or.inr
            (run_test_kw_error o cmd t elapsed _ _ hv hsf hmfi hkw)
        · exact Or.inl (Or.inr (Or.inr
            (run_test_kw_error o cmd t elapsed _ _ hv hsf hmfi hkw)))
  · exact Or.inl (Or.inr (Or.inl ⟨m, run_test_error o cmd t elapsed _ hv⟩))
  · exact Or.inl (Or.inr (Or.inr (run_test_error o cmd t elapsed _ hv)))

/-- C3 witness: a well-formed echo test with a never-raising collaborator
falls into the record-returning class. -/
theorem C3_witness :
    RunClasses (run_test oracle0 cmd_echo
      [("module_and_function", .str "test.echo"),
       ("args", .list [.str "hello"]),
       ("assertion", .str "assertEqual"),
       ("expected-return", .str "hello")] 0) :=
  C3_failure_classes oracle0 cmd_echo
    [("module_and_function", .str "test.echo"),
     ("args", .list [.str "hello"]),
     ("assertion", .str "assertEqual"),
     ("expected-return", .str "hello")] 0
    (Or.inr ⟨"test", "echo", rfl⟩)

/-- C3 counterexample: with a collaborator that never raises, a
`module_and_function` of "a.b.c" makes `run_test` itself raise a
`ValueError` (tuple unpacking of the three-part split) before any result
is recorded — a failure class other than a collaborator invocation
exception. -/
theorem C3_cx_validation_raises :
    run_test oracle0 cmd_echo
      [("module_and_function", .str "a.b.c"),
       ("assertion", .str "assertEqual"),
       ("expected-return", .str "x")] 0 = .error PyErr.valueError := rfl

/-- C4 (amended): when `assertion_section` is a non-empty string and the
operation's result is a mapping, the assertion is evaluated against the
string form of `value.get(section, False)` — so a missing key yields the
textual sentinel "False"; when the result is not a mapping (or the section
text is empty), the raw result is used unchanged as the actual value.
(The original claim fails for non-mapping results, which are passed through
rather than replaced by the sentinel — see the counterexample.) -/
theorem C4_assertion_section (cmd : Cmd) (f args : Val)
    (kw : List (String × Val)) (v : Val) (sec : String)
    (hargs : ∃ l, unpack_args args = .ok l)
    (hc : ∀ l, cmd f l kw = .ok v) :
    call_salt_command cmd f args kw (.str sec) =
      .ok (match v with
        | .dict kvs =>
            if sec ≠ "" then
              .str (pyStr ((kvs.lookup sec).getD (.bool false)))
            else v
        | _ => v) := by
  obtain ⟨l, hl⟩ := hargs
  unfold call_salt_command
  rw [hl]
  show (do
    let value ← invoke cmd f l kw
    apply_section value (.str sec)) = _
  rw [show invoke cmd f l kw = Except.ok v from by unfold invoke; rw [hc l]]
  show apply_section v (.str sec) = _
  cases v with
  | dict kvs =>
    simp only [apply_section]
    by_cases hs : sec = ""
    · rw [if_neg (by simp [pyTruthy, hs]), if_neg (by simp [hs])]
  
    · rw [if_pos (by simp [pyTruthy, hs]), if_pos hs]
      rfl
  | none => rfl
  | bool b => rfl
  | int n => rfl
  | str s => rfl
  | list xs => rfl

/-- C4 witness: drilling into the mapping `{shell: /bin/bash}` with the
section "shell" yields the textual actual "/bin/bash". -/
theorem C4_witness :
    call_salt_command cmd_const_dict (.str "user.info") Val.none []
      (.str "shell") = .ok (.str "/bin/bash") :=
  C4_assertion_section cmd_const_dict (.str "user.info") Val.none []
    (.dict [("shell", .str "/bin/bash")]) "shell" ⟨[], rfl⟩ (fun _ => rfl)

/-- C4 counterexample: with a non-mapping result 5 and assertion_section
"k", the wrapper returns the raw 5 — not the textual sentinel "False" the
claim requires. -/
theorem C4_cx_non_mapping_passthrough :
    call_salt_command cmd_const_int (.str "test.ping") Val.none [] (.str "k")
      = .ok (.int 5) ∧
    (Except.ok (Val.int 5) : Except PyErr Val) ≠ .ok (.str "False") := by
  constructor
  · rfl
  · intro h
    injection h with h2
    exact Val.noConfusion h2

theorem lookup_cons_self (k : String) (v : Val) (rest : List (String × Val)) :
    List.lookup k ((k, v) :: rest) = some v := by
  simp [List.lookup]

theorem lookup_cons_ne (a k : String) (v : Val) (rest : List (String × Val))
    (h : a ≠ k) : List.lookup a ((k, v) :: rest) = List.lookup a rest := by
  simp [List.lookup, beq_eq_false_iff_ne.mpr h]

theorem lookup_isSome_iff_mem (d : List (String × Val)) (k : String) :
    (d.lookup k).isSome = true ↔ k ∈ d.map Prod.fst := by
  induction d with
  | nil => simp [List.lookup]
  | cons kv rest ih =>
    obtain ⟨k1, v1⟩ := kv
    by_cases hk : k = k1
    · subst hk
      simp [lookup_cons_self]
    · rw [lookup_cons_ne k k1 v1 rest hk]
      simp only [List.map_cons, List.mem_cons, ih]
      constructor
      · exact Or.inr
      · rintro (h | h)
        · exact absurd h hk
        · exact h

theorem lookup_append_none (d e : List (String × Val)) (k : String)
    (h : d.lookup k = Option.none) :
    List.lookup k (d ++ e) = List.lookup k e := by
  induction d with
  | nil => rfl
  | cons kv rest ih =>
    obtain ⟨k1, v1⟩ := kv
    by_cases hk : k = k1
    · subst hk
      rw [lookup_cons_self] at h
      exact Option.noConfusion h
    · rw [lookup_cons_ne k k1 v1 rest hk] at h
      rw [List.cons_append, lookup_cons_ne k k1 v1 (rest ++ e) hk]
      exact ih h

theorem fst_replace (d : List (String × Val)) (k : String) (v : Val) :
    ((d.map (fun kv => if kv.1 = k then (k, v) else kv)).map Prod.fst)
      = d.map Prod.fst := by
  induction d with
  | nil => rfl
  | cons kv rest ih =>
    simp only [List.map_cons, ih]
    by_cases hk : kv.1 = k
    · simp [hk]
    · simp [hk]

theorem keys_odInsert (d : List (String × Val)) (k : String) (v : Val) :
    (odInsert d k v).map Prod.fst =
      if (d.lookup k).isSome then d.map Prod.fst
      else d.map Prod.fst ++ [k] := by
  unfold odInsert
  split
  · exact fst_replace d k v
  · simp

theorem lookup_replace_self (d : List (String × Val)) (k : String) (v : Val)
    (h : (d.lookup k).isSome) :
    (d.map (fun kv => if kv.1 = k then (k, v) else kv)).lookup k = some v := by
  induction d with
  | nil => simp [List.lookup] at h
  | cons kv rest ih =>
    obtain ⟨k1, v1⟩ := kv
    by_cases hk : k1 = k
    · subst hk
      simp only [List.map_cons, if_pos rfl]
      exact lookup_cons_self k1 v _
    · have hne : k ≠ k1 := fun he => hk he.symm
      rw [lookup_cons_ne k k1 v1 rest hne] at h
      simp only [List.map_cons, if_neg hk]
      rw [lookup_cons_ne k k1 v1 _ hne]
      exact ih h

theorem lookup_odInsert_self (d : List (String × Val)) (k : String) (v : Val) :
    (odInsert d k v).lookup k = some v := by
  unfold odInsert
  split
  · exact lookup_replace_self d k v (by assumption)
  · rename_i h2
    rw [lookup_append_none d [(k, v)] k
      (Option.not_isSome_iff_eq_none.mp (by simpa using h2))]
    exact lookup_cons_self k v []

theorem lookup_replace_ne (d : List (String × Val)) (k : String) (v : Val)
    (a : String) (ha : a ≠ k) :
    (d.map (fun kv => if kv.1 = k then (k, v) else kv)).lookup a
      = d.lookup a := by
  induction d with
  | nil => rfl
  | cons kv rest ih =>
    obtain ⟨k1, v1⟩ := kv
    by_cases hk : k1 = k
    · subst hk
      show List.lookup a
          ((if (k1, v1).1 = k1 then (k1, v) else (k1, v1))
            :: List.map (fun kv => if kv.1 = k1 then (k1, v) else kv) rest)
          = List.lookup a ((k1, v1) :: rest)
      rw [if_pos rfl, lookup_cons_ne a k1 v _ ha, lookup_cons_ne a k1 v1 rest ha]
      exact ih
    · simp only [List.map_cons, if_neg hk]
      by_cases hak : a = k1
      · subst hak
        rw [lookup_cons_self, lookup_cons_self]
      · rw [lookup_cons_ne a k1 v1 _ hak, lookup_cons_ne a k1 v1 rest hak]
        exact ih

theorem lookup_append_single_ne (d : List (String × Val)) (k : String)
    (v : Val) (a : String) (ha : a ≠ k) :
    List.lookup a (d ++ [(k, v)]) = d.lookup a := by
  induction d with
  | nil =>
    rw [List.nil_append, lookup_cons_ne a k v [] ha]
  | cons kv rest ih =>
    obtain ⟨k1, v1⟩ := kv
    by_cases hak : a = k1
    · subst hak
      rw [List.cons_append, lookup_cons_self, lookup_cons_self]
    · rw [List.cons_append, lookup_cons_ne a k1 v1 _ hak,
        lookup_cons_ne a k1 v1 rest hak]
      exact ih

theorem lookup_odInsert_ne (d : List (String × Val)) (k : String) (v : Val)
    (a : String) (ha : a ≠ k) :
    (odInsert d k v).lookup a = d.lookup a := by
  unfold odInsert
  split
  · exact lookup_replace_ne d k v a ha
  · exact lookup_append_single_ne d k v a ha

theorem nodup_keys_odInsert (d : List (String × Val)) (k : String) (v : Val)
    (h : (d.map Prod.fst).Nodup) : ((odInsert d k v).map Prod.fst).Nodup := by
  rw [keys_odInsert]
  split
  · exact h
  · rename_i h2
    have hk : k ∉ d.map Prod.fst := by
      rw [← lookup_isSome_iff_mem]
      simpa using h2
    refine List.Nodup.append h (List.nodup_singleton k) ?_
    intro a ha hb
    rw [List.mem_singleton] at hb
    exact hk (hb ▸ ha)

theorem load_file_nil (d : List (String × Val)) : load_file d [] = d := rfl

theorem load_file_cons (d : List (String × Val)) (k : String) (v : Val)
    (rest : List (String × Val)) :
    load_file d ((k, v) :: rest) = load_file (odInsert d k v) rest := rfl

theorem load_file_keys (r : List (String × Val)) :
    ∀ d, ∃ extra,
      (load_file d r).map Prod.fst = d.map Prod.fst ++ extra := by
  induction r with
  | nil => exact fun d => ⟨[], by simp [load_file_nil]⟩
  | cons kv rest ih =>
    intro d
    obtain ⟨k, v⟩ := kv
    rw [load_file_cons]
    obtain ⟨ex, he⟩ := ih (odInsert d k v)
    rw [he, keys_odInsert]
    by_cases hs : (d.lookup k).isSome = true
    · rw [if_pos hs]
      exact ⟨ex, rfl⟩
    · rw [if_neg hs]
      exact ⟨[k] ++ ex, by rw [List.append_assoc]⟩

theorem load_file_nodup (r : List (String × Val)) :
    ∀ d, (d.map Prod.fst).Nodup → ((load_file d r).map Prod.fst).Nodup := by
  induction r with
  | nil => exact fun d h => h
  | cons kv rest ih =>
    intro d h
    obtain ⟨k, v⟩ := kv
    rw [load_file_cons]
    exact ih (odInsert d k v) (nodup_keys_odInsert d k v h)

theorem load_file_lookup_not_mem (r : List (String × Val)) (k : String)
    (h : k ∉ r.map Prod.fst) :
    ∀ d, (load_file d r).lookup k = d.lookup k := by
  induction r with
  | nil => exact fun d => rfl
  | cons kv rest ih =>
    intro d
    obtain ⟨k1, v1⟩ := kv
    simp only [List.map_cons, List.mem_cons, not_or] at h
    rw [load_file_cons, ih h.2 (odInsert d k1 v1),
      lookup_odInsert_ne d k1 v1 k h.1]

theorem load_file_lookup_mem (r : List (String × Val)) (k : String)
    (hmem : k ∈ r.map Prod.fst) (hnd : (r.map Prod.fst).Nodup) :
    ∀ d, (load_file d r).lookup k = r.lookup k := by
  induction r with
  | nil => exact absurd hmem (by simp)
  | cons kv rest ih =>
    intro d
    obtain ⟨k1, v1⟩ := kv
    rw [load_file_cons]
    rw [List.map_cons] at hnd
    obtain ⟨hk1, hnd2⟩ := List.nodup_cons.mp hnd
    by_cases hk : k = k1
    · subst hk
      rw [load_file_lookup_not_mem rest k hk1 (odInsert d k v1),
        lookup_odInsert_self, lookup_cons_self]
    · have hmem2 : k ∈ rest.map Prod.fst := by
        rcases (by simpa using hmem : k = k1 ∨ k ∈ rest.map Prod.fst) with h | h
        · exact absurd h hk
        · exact h
      rw [ih hmem2 hnd2 (odInsert d k1 v1), lookup_cons_ne k k1 v1 rest hk]

theorem load_file_disjoint (r : List (String × Val))
    (hnd : (r.map Prod.fst).Nodup) :
    ∀ d, (∀ k ∈ r.map Prod.fst, d.lookup k = Option.none) →
      load_file d r = d ++ r := by
  induction r with
  | nil => exact fun d _ => by simp [load_file_nil]
  | cons kv rest ih =>
    intro d hd
    obtain ⟨k, v⟩ := kv
    have hk : d.lookup k = Option.none := hd k (by simp)
    have hins : odInsert d k v = d ++ [(k, v)] := by
      unfold odInsert
      rw [if_neg (by simp [hk])]
    rw [List.map_cons] at hnd
    obtain ⟨hk1, hnd2⟩ := List.nodup_cons.mp hnd
    rw [load_file_cons, hins, ih hnd2 (d ++ [(k, v)]) ?_, List.append_assoc]
    · rfl
    · intro k2 hk2
      rw [lookup_append_none d [(k, v)] k2 (hd k2 (by simp [hk2]))]
      rw [lookup_cons_ne k2 k v [] (fun he => hk1 (he ▸ hk2))]
      rfl

theorem posOf_append_left (x : String) (l1 l2 : List String) (h : x ∈ l1) :
    posOf x (l1 ++ l2) = posOf x l1 := by
  induction l1 with
  | nil => exact absurd h (by simp)
  | cons y ys ih =>
    by_cases hy : y = x
    · simp [posOf, hy]
    · have h2 : x ∈ ys := by
        rcases List.mem_cons.mp h with he | hm
        · exact absurd he.symm hy
        · exact hm
      simp [posOf, hy, ih h2]

/-- C8: when two rendered files are merged in discovery order and both
define a test named "x", the resulting ordered mapping contains exactly
one entry for "x", its value is the one from the later file, and it sits
at the position where "x" was first seen (its position in the first
file). -/
theorem C8_merge_overwrites (m1 m2 : List (String × Val))
    (h1 : (m1.map Prod.fst).Nodup) (h2 : (m2.map Prod.fst).Nodup)
    (hx1 : "x" ∈ m1.map Prod.fst) (hx2 : "x" ∈ m2.map Prod.fst) :
    ((load_test_suite [m1, m2]).map Prod.fst).count "x" = 1 ∧
    (load_test_suite [m1, m2]).lookup "x" = m2.lookup "x" ∧
    posOf "x" ((load_test_suite [m1, m2]).map Prod.fst)
      = posOf "x" (m1.map Prod.fst) := by
  have e1 : load_file [] m1 = m1 := by
    rw [load_file_disjoint m1 h1 [] (fun k _ => rfl)]
    exact List.nil_append m1
  have hsuite : load_test_suite [m1, m2] = load_file m1 m2 := by
    show load_file (load_file [] m1) m2 = load_file m1 m2
    rw [e1]
  obtain ⟨extra, hkeys⟩ := load_file_keys m2 m1
  refine ⟨?_, ?_, ?_⟩
  · rw [hsuite]
    exact List.count_eq_one_of_mem (load_file_nodup m2 m1 h1)
      (by rw [hkeys]; exact List.mem_append_left extra hx1)
  · rw [hsuite]
    exact load_file_lookup_mem m2 "x" hx2 h2 m1
  · rw [hsuite, hkeys]
    exact posOf_append_left "x" (m1.map Prod.fst) extra hx1

/-- C8 witness: merging `{x: 1, y: 2}` and then `{z: 3, x: 9}` keeps one
"x" entry, valued 9 from the later file, at position 0 where "x" was first
seen. -/
theorem C8_witness :
    ((load_test_suite [[("x", .int 1), ("y", .int 2)],
        [("z", .int 3), ("x", .int 9)]]).map Prod.fst).count "x" = 1 ∧
    (load_test_suite [[("x", .int 1), ("y", .int 2)],
        [("z", .int 3), ("x", .int 9)]]).lookup "x"
      = List.lookup "x" [("z", Val.int 3), ("x", Val.int 9)] ∧
    posOf "x" ((load_test_suite [[("x", .int 1), ("y", .int 2)],
        [("z", .int 3), ("x", .int 9)]]).map Prod.fst)
      = posOf "x" ([("x", Val.int 1), ("y", Val.int 2)].map Prod.fst) :=
  C8_merge_overwrites [("x", .int 1), ("y", .int 2)]
    [("z", .int 3), ("x", .int 9)]
    (by decide) (by decide) (by decide) (by decide)

theorem base_path_ab (R : String) :
    R ++ sep ++ convert_sls_to_path "a" = R ++ "/a" := by
  show R ++ "/" ++ "a" = R ++ "/a"
  rw [String.append_assoc]
  rfl

theorem init_path_ab (R : String) :
    R ++ "/a" ++ sep ++ "b" ++ sep ++ "saltcheck-tests" ++ sep ++ "init.tst"
      = c7_init_path R := by
  show R ++ "/a" ++ "/" ++ "b" ++ "/" ++ "saltcheck-tests" ++ "/" ++ "init.tst"
    = R ++ "/a/b/saltcheck-tests/init.tst"
  simp only [String.append_assoc]
  rfl

theorem name_path_ab (R : String) :
    R ++ "/a" ++ sep ++ "saltcheck-tests" ++ sep ++ "b" ++ ".tst"
      = c7_name_path R := by
  show R ++ "/a" ++ "/" ++ "saltcheck-tests" ++ "/" ++ "b" ++ ".tst"
    = R ++ "/a/saltcheck-tests/b.tst"
  simp only [String.append_assoc]
  rfl

theorem gather_path_ab (fs : FS) (R : String) :
    gather_files fs (R ++ "/a" ++ sep ++ "b") = c7_all_tsts fs R := by
  unfold gather_files c7_all_tsts
  have e : R ++ "/a" ++ sep ++ "b" ++ sep ++ "saltcheck-tests"
      = R ++ "/a/b/saltcheck-tests" := by
    show R ++ "/a" ++ "/" ++ "b" ++ "/" ++ "saltcheck-tests"
      = R ++ "/a/b/saltcheck-tests"
    simp only [String.append_assoc]
    rfl
  rw [e]
  rfl

theorem probe_eq (fs : FS) (R : String) (acc : List String) :
    probe_conventional fs (R ++ "/a") "b" acc = acc ++ c7_candidates fs R := by
  unfold probe_conventional c7_candidates
  rw [init_path_ab R, name_path_ab R]
  cases hi : fs.isfile (c7_init_path R) <;>
    cases hn : fs.isfile (c7_name_path R) <;> simp [hi, hn]

theorem go_false (fs : FS) : ∀ roots : List String,
    (∀ R ∈ roots, fs.isdir (R ++ "/a") = false →
      fs.isfile (c7_init_path R) = false ∧
      fs.isfile (c7_name_path R) = false) →
    ∀ acc, add_test_files_go fs "a" "b" false roots acc
      = acc ++ (roots.map (c7_candidates fs)).flatten := by
  intro roots
  induction roots with
  | nil =>
    intro _ acc
    simp [add_test_files_go]
  | cons R rest ih =>
    intro hwf acc
    show (if fs.isdir (R ++ sep ++ convert_sls_to_path "a") = true then
        add_test_files_go fs "a" "b" false rest
          (probe_conventional fs (R ++ sep ++ convert_sls_to_path "a") "b" acc)
      else add_test_files_go fs "a" "b" false rest acc)
      = acc ++ (((R :: rest).map (c7_candidates fs)).flatten)
    rw [base_path_ab R]
    by_cases hd : fs.isdir (R ++ "/a") = true
    · rw [if_pos hd, probe_eq fs R acc,
        ih (fun r hr => hwf r (List.mem_cons_of_mem R hr))
          (acc ++ c7_candidates fs R)]
      simp
    · rw [if_neg hd]
      obtain ⟨h1, h2⟩ := hwf R (List.mem_cons_self R rest) (by simpa using hd)
      rw [ih (fun r hr => hwf r (List.mem_cons_of_mem R hr)) acc]
      simp [c7_candidates, h1, h2]

theorem go_true (fs : FS) : ∀ (roots acc : List String),
    add_test_files_go fs "a" "b" true roots acc
      = (match roots.find? (fun R => fs.isdir (R ++ "/a")) with
         | some R => c7_all_tsts fs R
         | Option.none => acc) := by
  intro roots
  induction roots with
  | nil => intro acc; rfl
  | cons R rest ih =>
    intro acc
    show (if fs.isdir (R ++ sep ++ convert_sls_to_path "a") = true then
        gather_files fs (R ++ sep ++ convert_sls_to_path "a" ++ sep ++ "b")
      else add_test_files_go fs "a" "b" true rest acc)
      = _
    rw [base_path_ab R]
    by_cases hd : fs.isdir (R ++ "/a") = true
    · rw [if_pos hd, gather_path_ab fs R,
        @List.find?_cons_of_pos _ (fun r => fs.isdir (r ++ "/a")) R rest hd]
    · rw [if_neg hd, ih acc,
        @List.find?_cons_of_neg _ (fun r => fs.isdir (r ++ "/a")) R rest
          (by simpa using hd)]

/-- C7: discovery for unit name "a.b" over search roots.  With
`checkAll = false`, exactly the two conventional locations
`R/a/b/saltcheck-tests/init.tst` and `R/a/saltcheck-tests/b.tst` are
probed per root, whichever exist are appended (init file first), and the
loop continues across all roots.  With `checkAll = true`, every `.tst`
file under `R/a/b/saltcheck-tests/` (each directory's listing sorted by
name) is collected for the first root whose base path `R/a` is a
directory, and the search stops there.  The hypothesis states
file-system sanity: files below `R/a` exist only when `R/a` is a
directory. -/
theorem C7_discovery (fs : FS) (roots : List String)
    (hwf : ∀ R ∈ roots, fs.isdir (R ++ "/a") = false →
      fs.isfile (c7_init_path R) = false ∧
      fs.isfile (c7_name_path R) = false) :
    add_test_files_for_sls fs "a.b" false roots []
      = (roots.map (c7_candidates fs)).flatten ∧
    add_test_files_for_sls fs "a.b" true roots []
      = (match roots.find? (fun R => fs.isdir (R ++ "/a")) with
         | some R => c7_all_tsts fs R
         | Option.none => []) := by
  constructor
  · show add_test_files_go fs "a" "b" false roots []
      = (roots.map (c7_candidates fs)).flatten
    rw [go_false fs roots hwf []]
    exact List.nil_append _
  · show add_test_files_go fs "a" "b" true roots []
      = (match roots.find? (fun R => fs.isdir (R ++ "/a")) with
         | some R => c7_all_tsts fs R
         | Option.none => [])
    exact go_true fs roots []

/-- C7 witness: with roots R0 (no directory), R1 (named file only) and R2
(init file and a walkable test directory), checkAll=false collects the
named file of R1 then the init file of R2; checkAll=true stops at R1, the
first root whose base is a directory, whose test directory walk is
empty — R2 is never reached. -/
theorem C7_witness :
    add_test_files_for_sls fs7 "a.b" false ["R0", "R1", "R2"] []
      = ["R1/a/saltcheck-tests/b.tst", "R2/a/b/saltcheck-tests/init.tst"] ∧
    add_test_files_for_sls fs7 "a.b" true ["R0", "R1", "R2"] [] = [] := by
  have h := C7_discovery fs7 ["R0", "R1", "R2"] (by decide)
  exact ⟨h.1.trans (by decide), h.2.trans (by decide)⟩
